import Mathlib

/-!
Shallow embedding of the global-preprocessing core of the cautical solver
(src/src/internal.cpp) together with theorems checking the repository's
natural-language specification against it.

The solver's external collaborators (propagate, analyze, backtrack,
search_assume_decision, the watch lists and the clause database) are out of
scope of the repository slice and are abstracted as an operations record
(Ops) over an opaque solver-state type; every routine of internal.cpp that
the claims mention is translated line by line into a pure Lean function with
explicit state passing.  The unbounded propagation loops of the source
(while (!unsat && !propagate()) analyze();) are given an explicit fuel
argument and an Option result, where none models non-termination or an
aborted run (a failed assertion or undefined behaviour in the source).
-/

namespace Cautical

/-- Boolean list membership over machine integers, used throughout the
embedding in place of std::find style scans. -/
def memB (x : Int) : List Int → Bool
  | [] => false
  | y :: ys => if y = x then true else memB x ys

/-- A property holding on the defined result of a possibly aborted
computation; the none case (abort / divergence in the source) is vacuous. -/
def onSome {α : Type _} (o : Option α) (p : α → Prop) : Prop :=
  match o with
  | none => True
  | some a => p a

/-! ### Greedy set cover (internal.cpp lines 2038-2113)

The C++ works with std::unordered_set over int; sets become Finset Int.
The iteration order of an unordered_set is unspecified; wherever the C++
copies such a set into a vector the embedding uses the ascending order. -/

/-- Union of the coverage sets selected by a list of indices, matching the
covered set that greedySetCover accumulates from its chosen subsets. -/
def chosenUnion (subsets : List (Finset Int)) (idxs : List Nat) : Finset Int :=
  idxs.foldl (fun acc i => acc ∪ subsets.getD i ∅) ∅

/-- The inner selection scan of greedySetCover: the first index whose
coverage set adds strictly more new elements than any earlier one (the C++
keeps best_idx = -1, max_new_elements = 0 and updates on a strict
improvement, so a subset contributing zero new elements is never chosen). -/
def bestIdx (subsets : List (Finset Int)) (covered : Finset Int) : Option Nat :=
  (subsets.enum.foldl
    (fun (acc : Option Nat × Nat) p =>
      let ne := (p.2 \ covered).card
      if ne > acc.2 then (some p.1, ne) else acc)
    ((none : Option Nat), 0)).1

/-- The while loop of greedySetCover.  Each productive iteration strictly
enlarges covered inside the union of all subsets, so the iteration count is
bounded by the total size of the subsets; the fuel passed by greedySetCover
is one larger and therefore never runs out before the loop's own exit. -/
def greedyLoop (subsets : List (Finset Int)) (totalLen : Nat) :
    Nat → Finset Int → Finset Int → List Nat → List Nat × Finset Int
  | 0, _, uncovered, chosen => (chosen, uncovered)
  | fuel + 1, covered, uncovered, chosen =>
    if covered.card < totalLen then
      match bestIdx subsets covered with
      | none => (chosen, uncovered)
      | some b =>
        let sb := subsets.getD b ∅
        greedyLoop subsets totalLen fuel (covered ∪ sb) (uncovered \ sb)
          (chosen ++ [b])
    else (chosen, uncovered)

/-- internal.cpp lines 2073-2113: greedy maximum-coverage selection.
Returns the chosen subset indices and the residual (uncovered) elements. -/
def greedySetCover (subsets : List (Finset Int)) (total : List Int) :
    List Nat × Finset Int :=
  greedyLoop subsets total.length
    (subsets.foldl (fun n s => n + s.card) 1 + total.length)
    ∅ total.toFinset []

/-- std::distance(begin, find(...)): index of the first occurrence, or the
length of the list when absent. -/
def indexOfL (x : Int) : List Int → Nat
  | [] => 0
  | y :: ys => if y = x then 0 else indexOfL x ys + 1

/-- The loop of greedySetCoverSpecial (internal.cpp lines 2038-2070): walk
the preferred order curr_global_try, look each literal up in alpha_a and
select the coverage set at that index.  The source asserts
0 <= learn_idx < subsets.size() and alpha_a.size() == subsets.size(); a
violated assertion aborts the run, modeled as none. -/
def specialLoop (alphaA : List Int) (subsets : List (Finset Int)) :
    List Int → Finset Int → Finset Int → List Nat →
    Option (List Nat × Finset Int)
  | [], _, uncovered, chosen => some (chosen, uncovered)
  | learn :: rest, covered, uncovered, chosen =>
    let idx := indexOfL learn alphaA
    if idx < subsets.length ∧ alphaA.length = subsets.length then
      let sb := subsets.getD idx ∅
      specialLoop alphaA subsets rest (covered ∪ sb) (uncovered \ sb)
        (chosen ++ [idx])
    else none

/-- internal.cpp lines 2038-2070: schedule-directed cover selection. -/
def greedySetCoverSpecial (currGlobalTry alphaA : List Int)
    (subsets : List (Finset Int)) (total : List Int) :
    Option (List Nat × Finset Int) :=
  specialLoop alphaA subsets currGlobalTry ∅ total.toFinset []

/-! ### Limit manager (internal.cpp lines 424-634) -/

/-- The configuration fields consumed by the two limit initializers. -/
structure LimOpts where
  subsumeint : Int
  elimint : Int
  elimboundmin : Int
  compactint : Int
  probeint : Int
  conditionint : Int
  reduceint : Int
  flushint : Int
  rephaseint : Int
  restartint : Int
  stabilizeint : Int
  reluctant : Int
  reluctantmax : Int
  stabilize : Bool
  stabilizeonly : Bool
deriving Repr, DecidableEq

/-- The inc increments (fields of Internal::inc read by the initializers). -/
structure IncLimits where
  preprocessing : Int
  conflicts : Int
  decisions : Int
  localsearch : Int
  flush : Int
  stabilize : Int
deriving Repr, DecidableEq

/-- The lim thresholds (fields of Internal::lim written by the
initializers), together with the last bookkeeping they reset. -/
structure Limits where
  subsume : Int
  elim : Int
  elimbound : Int
  compact : Int
  probe : Int
  condition : Int
  preprocessing : Int
  reduce : Int
  flush : Int
  rephase : Int
  rephased0 : Int
  rephased1 : Int
  restart : Int
  stabilize : Int
  conflicts : Int
  decisions : Int
  localsearch : Int
  initialized : Bool
deriving Repr, DecidableEq

/-- The solver-level pieces touched by init_search_limits besides lim: the
stable flag, the reluctant-doubling scheduler, and the average trackers
(external collaborators init_averages / swap_averages, modeled as event
counters). -/
structure SearchGlobals where
  lim : Limits
  inc : IncLimits
  lastElimMarked : Int
  lastTernaryMarked : Int
  lastReduceConflicts : Int
  stable : Bool
  reluctantEnabled : Bool
  averagesInits : Nat
  averagesSwaps : Nat
deriving Repr, DecidableEq

/-- internal.cpp lines 424-509: Internal::init_preprocessing_limits.  The
scale function lives outside this translation unit and is passed in.  The
source guards each assignment with the incremental flag in sequence;
since every guarded block writes disjoint fields, the translation states
each field's conditional new value directly. -/
def init_preprocessing_limits (o : LimOpts) (scale : Int → Int)
    (conflicts : Int) (st : SearchGlobals) : SearchGlobals :=
  let incremental := st.lim.initialized
  { st with
      lastElimMarked := if incremental then st.lastElimMarked else -1,
      lastTernaryMarked := if !incremental then -1 else st.lastTernaryMarked,
      lim := { st.lim with
                 subsume :=
                   if incremental then st.lim.subsume
                   else conflicts + scale o.subsumeint,
                 elim :=
                   if incremental then st.lim.elim
                   else conflicts + scale o.elimint,
                 elimbound := o.elimboundmin,
                 compact :=
                   if !incremental then conflicts + o.compactint
                   else st.lim.compact,
                 probe :=
                   if incremental then st.lim.probe
                   else conflicts + o.probeint,
                 condition :=
                   if incremental then st.lim.condition
                   else conflicts + o.conditionint,
                 preprocessing :=
                   if st.inc.preprocessing ≤ 0 then 0
                   else st.inc.preprocessing } }

/-- internal.cpp lines 511-634: Internal::init_search_limits, in the same
per-field style (every guarded block of the source writes disjoint
fields).  The stable-phase branch keeps stable on an incremental call in
stabilizeonly mode (the source asserts it is already set), turns a stable
phase off with an average swap on other incremental calls, and restarts
from the option default otherwise. -/
def init_search_limits (o : LimOpts) (conflicts decisions : Int)
    (st : SearchGlobals) : SearchGlobals :=
  let incremental := st.lim.initialized
  { st with
      lastReduceConflicts :=
        if incremental then st.lastReduceConflicts else -1,
      stable :=
        if !incremental then o.stabilize && o.stabilizeonly
        else if o.stabilize && o.stabilizeonly then st.stable
        else false,
      averagesInits :=
        if !incremental then st.averagesInits + 1 else st.averagesInits,
      averagesSwaps :=
        if incremental && !(o.stabilize && o.stabilizeonly) && st.stable then
          st.averagesSwaps + 1
        else st.averagesSwaps,
      reluctantEnabled := o.stabilize && o.reluctant != 0,
      inc := { st.inc with
                 flush := if incremental then st.inc.flush else o.flushint,
                 stabilize := o.stabilizeint },
      lim := { st.lim with
                 reduce :=
                   if incremental then st.lim.reduce
                   else conflicts + o.reduceint,
                 flush := if incremental then st.lim.flush else o.flushint,
                 rephase := conflicts + o.rephaseint,
                 rephased0 := 0,
                 rephased1 := 0,
                 restart := conflicts + o.restartint,
                 stabilize := conflicts + o.stabilizeint,
                 conflicts :=
                   if st.inc.conflicts < 0 then -1
                   else conflicts + st.inc.conflicts,
                 decisions :=
                   if st.inc.decisions < 0 then -1
                   else decisions + st.inc.decisions,
                 localsearch :=
                   if st.inc.localsearch ≤ 0 then 0 else st.inc.localsearch,
                 initialized := true } }

/-! ### Abstract solver state and collaborator operations

The propagation engine, conflict analyzer, trail and clause database are
external to the verified slice (spec section 1, OUT OF SCOPE); they are
abstracted as the record below, and every concrete theorem instantiates it
with an explicit small state type. -/

/-- A clause of the database as seen by the scans of internal.cpp: its
literal list plus the redundant and garbage flags. -/
structure EClause where
  lits : List Int
  redundant : Bool
  garbage : Bool
deriving Repr, DecidableEq

/-- An observable emission of add_clause / record_clause: a learned
multi-literal clause, a learned unit, or a line written to the recording
streams. -/
inductive EmitEvent where
  | learned (cl : List Int)
  | unit (l : Int)
  | recorded (lit : Int) (negCond autarky : List Int)
deriving Repr, DecidableEq

/-- The collaborator operations consumed by the global-preprocessing core.
val and isFixed follow the source's flags(lit) / val(lit) conventions
(per-variable status, sign-symmetric value); timeRead models a wall-clock
read (reading may advance the clock, hence returns a new state). -/
structure Ops (σ : Type) where
  val : σ → Int → Int
  isFixed : σ → Int → Bool
  isDecision : σ → Int → Bool
  varLevel : σ → Int → Int
  level : σ → Int
  unsat : σ → Bool
  backtrack : σ → Int → σ
  assumeDec : σ → Int → σ
  propagate : σ → σ × Bool
  analyze : σ → σ
  watches : σ → Int → List (List Int)
  clausesOf : σ → List EClause
  active : σ → Int → Bool
  timeRead : σ → Int × σ

/-- The option fields of Internal::opts consumed by the embedded slice. -/
structure Opts where
  globallearn : Bool
  globalrecord : Bool
  globalfiltertriv : Bool
  globalnoshrink : Bool
  globalbcp : Bool
  globalalphaagreedy : Bool
  globalchessheur : Bool
  globalalphaasort : Bool
  globalalphaarandom : Bool
  globaltouch : Bool
  globalisort : Bool
  globalorderi : Bool
  globalbothpol : Bool
  globalmaxlen : Int
  globalmaxclause : Int
  globaltimelim : Int
deriving Repr, DecidableEq

/-- The loop while (!unsat && !propagate()) analyze(); fuelled, with none
for fuel exhaustion (the source may loop without bound here). -/
def settle {σ : Type _} (ops : Ops σ) : Nat → σ → Option σ
  | 0, _ => none
  | fuel + 1, s =>
    if ops.unsat s then some s
    else
      match ops.propagate s with
      | (s1, true) => some s1
      | (s1, false) => settle ops fuel (ops.analyze s1)

/-- The loop while (!propagate()) analyze(); (no unsat test, used by
global_preprocess at line 1412). -/
def settleNoUnsat {σ : Type _} (ops : Ops σ) : Nat → σ → Option σ
  | 0, _ => none
  | fuel + 1, s =>
    match ops.propagate s with
    | (s1, true) => some s1
    | (s1, false) => settleNoUnsat ops fuel (ops.analyze s1)

/-! ### Triviality check (internal.cpp lines 2386-2420) -/

/-- The literal loop of check_if_clause_trivial: skip falsified literals,
stop with true on a satisfied literal, otherwise assume the negation and
propagate; a conflict runs analyze and the settle loop and stops with
true. -/
def trivLoop {σ : Type _} (ops : Ops σ) (fuel : Nat) :
    List Int → σ → Option (Bool × σ)
  | [], s => some (false, s)
  | l :: rest, s =>
    let v := ops.val s l
    if v > 0 then some (true, s)
    else if v < 0 then trivLoop ops fuel rest s
    else
      let s1 := ops.assumeDec s (-1 * l)
      match ops.propagate s1 with
      | (s2, true) => trivLoop ops fuel rest s2
      | (s2, false) =>
        match settle ops fuel (ops.analyze s2) with
        | none => none
        | some s3 => some (true, s3)

/-- internal.cpp lines 2386-2420: Internal::check_if_clause_trivial.  Note
that the oversized-clause early return happens before the backtrack. -/
def check_if_clause_trivial {σ : Type _} (ops : Ops σ) (globalmaxlen : Int)
    (fuel : Nat) (c : List Int) (s : σ) : Option (Bool × σ) :=
  if (c.length : Int) > globalmaxlen then some (true, s)
  else
    match trivLoop ops fuel c (ops.backtrack s 0) with
    | none => none
    | some (b, s1) => some (b, ops.backtrack s1 0)

/-- The boolean decision of the literal scan alone (state outputs and the
conflict clean-up dropped): true when a satisfied literal or a propagation
conflict is met before the clause is exhausted. -/
def scanHit {σ : Type _} (ops : Ops σ) : List Int → σ → Bool
  | [], _ => false
  | l :: rest, s =>
    let v := ops.val s l
    if v > 0 then true
    else if v < 0 then scanHit ops rest s
    else
      match ops.propagate (ops.assumeDec s (-1 * l)) with
      | (s2, true) => scanHit ops rest s2
      | (_, false) => true

/-- Modelled from the spec (section 4.6): the spec's characterization of
the triviality scan, which skips literals already assigned true or false
and reports trivial only when a propagation conflict happens before the
literals are exhausted. -/
def spec_trivial_scan {σ : Type _} (ops : Ops σ) : List Int → σ → Bool
  | [], _ => false
  | l :: rest, s =>
    let v := ops.val s l
    if v > 0 then spec_trivial_scan ops rest s
    else if v < 0 then spec_trivial_scan ops rest s
    else
      match ops.propagate (ops.assumeDec s (-1 * l)) with
      | (s2, true) => spec_trivial_scan ops rest s2
      | (_, false) => true

/-! ### Shrink strategies (internal.cpp lines 2247-2333)

Both functions receive alpha_a_useful and neg_alpha_c_minus_c0 by value in
the C++ source, so the removals and retentions they compute live on local
copies; the embeddings below return those local results, and the caller in
least_conditional_part discards them exactly as the source does. -/

/-- Does the binary clause c link literal a to the negation of residual r
(the size == 2 test with the two literal layouts of internal.cpp line
2266)? -/
def isBinMatch (a : Int) (c : List Int) (r : Int) : Bool :=
  match c with
  | [x, y] => (x = a ∧ y = -r) ∨ (y = a ∧ x = -r)
  | _ => false

/-- Erase the first residual explained by clause c (the inner alpha_c_j
loop with its break), or none when no residual matches. -/
def removeFirstMatch (a : Int) (c : List Int) : List Int → Option (List Int)
  | [] => none
  | r :: rs =>
    if isBinMatch a c r then some rs
    else
      match removeFirstMatch a c rs with
      | none => none
      | some rs1 => some (r :: rs1)

/-- The watch scan of bcp_shrink for one antecedent literal: each watched
clause may erase at most one residual; keep accumulates keep_i. -/
def scanWatchesBcp (a : Int) : List (List Int) → List Int → Bool →
    List Int × Bool
  | [], neg, keep => (neg, keep)
  | c :: cs, neg, keep =>
    match removeFirstMatch a c neg with
    | some neg1 => scanWatchesBcp a cs neg1 true
    | none => scanWatchesBcp a cs neg keep

/-- internal.cpp lines 2247-2277: Internal::bcp_shrink.  Returns the local
final values of (alpha_a_useful, neg_alpha_c_minus_c0); the C++ function is
void and its caller never observes them. -/
def bcp_shrink {σ : Type _} (ops : Ops σ) (s : σ) :
    List Int → List Int → List Int → List Int × List Int
  | [], useful, neg => (useful, neg)
  | a :: rest, useful, neg =>
    if ops.isFixed s a then bcp_shrink ops s rest useful neg
    else
      let (neg1, keep) := scanWatchesBcp a (ops.watches s a) neg false
      bcp_shrink ops s rest (if keep then useful ++ [a] else useful) neg1

/-- Remove every falsified residual (val < 0) in order; the boolean is
keep_i, true when at least one was removed. -/
def filterFalsified (v : Int → Int) : List Int → List Int × Bool
  | [] => ([], false)
  | x :: xs =>
    let (r, k) := filterFalsified v xs
    if v x < 0 then (r, true) else (x :: r, k)

/-- internal.cpp lines 2279-2333: Internal::propagate_shrink.  The only
return statement in the source is the early return false on a repeated
conflict; when control reaches the end of the function body after the final
backtrack there is no return statement, so the value the caller reads is
indeterminate: that path yields none here. -/
def propagate_shrink {σ : Type _} (ops : Ops σ) :
    List Int → List Int → List Int → σ → Option Bool × σ
  | [], _useful, _neg, s => (none, ops.backtrack s 0)
  | a :: rest, useful, neg, s =>
    if ops.isFixed s a then propagate_shrink ops rest useful neg s
    else
      let s1 := ops.assumeDec (ops.backtrack s 0) (-a)
      match ops.propagate s1 with
      | (s2, false) =>
        let s3 := ops.analyze s2
        match ops.propagate s3 with
        | (s4, false) => (some false, s4)
        | (s4, true) => propagate_shrink ops rest useful neg s4
      | (s2, true) =>
        let (neg1, keep) := filterFalsified (ops.val s2) neg
        propagate_shrink ops rest (if keep then useful ++ [a] else useful)
          neg1 s2

/-! ### Antecedent ordering (internal.cpp lines 1994-2037) -/

/-- internal.cpp lines 1994-2006: Internal::compare_alpha_a.  A propagation
conflict here hits assert(false); the state is not backtracked before
returning. -/
def compare_alpha_a {σ : Type _} (ops : Ops σ) (s : σ) (a b : Int) :
    Option (Bool × σ) :=
  let s1 := ops.assumeDec (ops.backtrack s 0) a
  match ops.propagate s1 with
  | (_, false) => none
  | (s2, true) => some (ops.val s2 b > 0, s2)

/-- Swap two positions of a list (the temp swap of imp_sort_alpha_a). -/
def swapIdx (l : List Int) (i j : Nat) : List Int :=
  match l.get? i, l.get? j with
  | some a, some b => (l.set i b).set j a
  | _, _ => l

/-- Inner j loop of imp_sort_alpha_a. -/
def impSortJ {σ : Type _} (ops : Ops σ) :
    Nat → List Int → Nat → Nat → σ → Option (List Int × σ)
  | 0, arr, _, _, s => some (arr, s)
  | fj + 1, arr, i, j, s =>
    if j < arr.length then
      match arr.get? j, arr.get? i with
      | some aj, some ai =>
        match compare_alpha_a ops s aj ai with
        | none => none
        | some (b, s1) =>
          impSortJ ops fj (if b then swapIdx arr i j else arr) i (j + 1) s1
      | _, _ => some (arr, s)
    else some (arr, s)

/-- Outer i loop of imp_sort_alpha_a. -/
def impSortI {σ : Type _} (ops : Ops σ) :
    Nat → List Int → Nat → σ → Option (List Int × σ)
  | 0, arr, _, s => some (arr, s)
  | fi + 1, arr, i, s =>
    if i < arr.length then
      match impSortJ ops arr.length arr i (i + 1) s with
      | none => none
      | some (arr1, s1) => impSortI ops fi arr1 (i + 1) s1
    else some (arr, s)

/-- internal.cpp lines 2011-2022: Internal::imp_sort_alpha_a, the bubble
reordering driven by compare_alpha_a. -/
def imp_sort_alpha_a {σ : Type _} (ops : Ops σ) (arr : List Int) (s : σ) :
    Option (List Int × σ) :=
  impSortI ops arr.length arr 0 s

/-- internal.cpp lines 2031-2037: Internal::custom_sort_alpha_a.  The
random branch uses std::random_device, a non-deterministic source; it is
modeled by the shuffle oracle argument. -/
def custom_sort_alpha_a {σ : Type _} (ops : Ops σ) (opts : Opts)
    (shuffleO : List Int → List Int) (arr : List Int) (s : σ) :
    Option (List Int × σ) :=
  if opts.globalalphaasort then imp_sort_alpha_a ops arr s
  else if opts.globalalphaarandom then some (shuffleO arr, s)
  else some (arr, s)

/-! ### Greedy shrink drivers (internal.cpp lines 2117-2245) -/

/-- The propagated set collected over neg_alpha_c: every residual literal
currently falsified (an unordered_set in the source, a Finset here). -/
def collectPropagated (v : Int → Int) : List Int → Finset Int
  | [] => ∅
  | x :: xs =>
    if v x < 0 then insert x (collectPropagated v xs)
    else collectPropagated v xs

/-- The antecedent loop of greedy_sort_alpha_a (internal.cpp lines
2185-2217): per non-fixed antecedent assume its negation, propagate,
collect the falsified residuals; conflicts run analyze and break out of
the loop (possibly after a second analyze). -/
def gsaLoop {σ : Type _} (ops : Ops σ) (neg : List Int) :
    List Int → σ → List Int → List (Finset Int) →
    σ × List Int × List (Finset Int)
  | [], s, useful, sets => (s, useful, sets)
  | a :: rest, s, useful, sets =>
    if ops.isFixed s a then gsaLoop ops neg rest s useful sets
    else
      let s1 := ops.assumeDec (ops.backtrack s 0) (-a)
      match ops.propagate s1 with
      | (s2, false) =>
        let s3 := ops.analyze s2
        if ops.unsat s3 then (s3, useful, sets)
        else
          match ops.propagate s3 with
          | (s4, false) => (ops.analyze s4, useful, sets)
          | (s4, true) => gsaLoop ops neg rest s4 useful sets
      | (s2, true) =>
        let prop := collectPropagated (ops.val s2) neg
        if prop.card > 0 then
          gsaLoop ops neg rest s2 (useful ++ [a]) (sets ++ [prop])
        else gsaLoop ops neg rest s2 useful sets

/-- Look up each chosen index in alpha_a_useful
(alpha_a_useful[index] at internal.cpp line 2236); an out-of-range index
is undefined behaviour, modeled as none. -/
def mapChosen (useful : List Int) : List Nat → Option (List Int)
  | [] => some []
  | i :: is_ =>
    match useful.get? i, mapChosen useful is_ with
    | some x, some xs => some (x :: xs)
    | _, _ => none

/-- A Finset copied into a vector; the unordered_set iteration order is
unspecified in the source, modeled as ascending. -/
def finsetToAscList (s : Finset Int) : List Int :=
  s.sort (· ≤ ·)

/-- internal.cpp lines 2175-2245: Internal::greedy_sort_alpha_a.  Note the
source feeds global_try and the full alpha_a to greedySetCoverSpecial while
the coverage sets were collected per alpha_a_useful entry. -/
def greedy_sort_alpha_a {σ : Type _} (ops : Ops σ)
    (globalTry alphaA neg : List Int) (s : σ) :
    Option (List Int × List Int × σ) :=
  let (s1, useful, sets) := gsaLoop ops neg alphaA s [] []
  let s2 := ops.backtrack s1 0
  match greedySetCoverSpecial globalTry alphaA sets neg with
  | none => none
  | some (chosen, uncovered) =>
    match mapChosen useful chosen with
    | none => none
    | some usefulFinal => some (usefulFinal, finsetToAscList uncovered, s2)

/-- The schedule loop of greedy_sort_alpha_a_special (internal.cpp lines
2129-2167); the boolean marks the early (empty, empty) return taken on a
conflict, and none models the violated assert val(-learn) >= 0. -/
def gsasLoop {σ : Type _} (ops : Ops σ) (alphaA neg : List Int) :
    List Int → σ → List Int → Finset Int →
    Option (Bool × σ × List Int × Finset Int)
  | [], s, gtf, prop => some (false, s, gtf, prop)
  | learn :: rest, s, gtf, prop =>
    let gtf1 := if memB learn alphaA then gtf ++ [learn] else gtf
    if ops.isFixed s learn then gsasLoop ops alphaA neg rest s gtf1 prop
    else if ops.val s (-learn) < 0 then none
    else if ops.val s (-learn) > 0 then gsasLoop ops alphaA neg rest s gtf1 prop
    else
      let s1 := ops.assumeDec s (-learn)
      match ops.propagate s1 with
      | (s2, false) =>
        let s3 := ops.analyze s2
        match ops.propagate s3 with
        | (s4, false) => some (true, ops.analyze s4, gtf1, prop)
        | (s4, true) => some (true, s4, gtf1, prop)
      | (s2, true) =>
        gsasLoop ops alphaA neg rest s2 gtf1
          (prop ∪ collectPropagated (ops.val s2) neg)

/-- internal.cpp lines 2117-2173: Internal::greedy_sort_alpha_a_special.
The final assert propagated.size() == neg_alpha_c.size() aborts (none)
when violated. -/
def greedy_sort_alpha_a_special {σ : Type _} (ops : Ops σ)
    (globalTry alphaA neg : List Int) (s : σ) :
    Option (List Int × List Int × σ) :=
  let s0 := ops.backtrack s 0
  match gsasLoop ops alphaA neg globalTry s0 [] ∅ with
  | none => none
  | some (early, s1, gtf, prop) =>
    if early then some ([], [], s1)
    else
      let s2 := ops.backtrack s1 0
      if prop.card = neg.length then some (gtf, [], s2) else none

/-! ### Least-conditional-part derivation (internal.cpp lines 2422-2588)

The globalmarks bitset (global_getbit / global_setbit / global_unsetbit)
lives in a header outside the provided slice; per spec section 3 it is one
transient bit per literal, modeled as a function Int to Bool threaded
explicitly. -/

/-- Accumulator of the clause scan: neg_alpha_c, the positively satisfied
touches (the insertion stream of the times_touched map) and the marks. -/
structure ScanOut where
  neg : List Int
  touched : List Int
  marks : Int → Bool

/-- Does the clause contain a literal satisfied and fixed (the skip_clause
test of internal.cpp lines 2451-2459)? -/
def clauseSkipped (v : Int → Int) (fx : Int → Bool) (lits : List Int) : Bool :=
  lits.any (fun l => decide (v l > 0) && fx l)

/-- One clause's literal loop (internal.cpp lines 2465-2487): returns
(satisfies_clause, positive touches in order, alpha_touches).  The marks
are read against their value on entry to the clause, exactly as the source
only sets bits after the clause completes. -/
def scanOneClause (v : Int → Int) (fx : Int → Bool) (mk : Int → Bool)
    (lits : List Int) : Bool × List Int × List Int :=
  lits.foldl
    (fun acc l =>
      let sat := acc.1
      let tou := acc.2.1
      let alp := acc.2.2
      if v l > 0 then (true, tou ++ [l], alp)
      else if v l < 0 then
        if fx l then (sat, tou, alp)
        else if mk l then (sat, tou, alp)
        else (sat, tou, alp ++ [l])
      else (sat, tou, alp))
    (false, [], [])

/-- Set the mark bit of every literal of the list. -/
def setMarksList (ls : List Int) (m : Int → Bool) : Int → Bool :=
  ls.foldl (fun m0 l => fun x => if x = l then true else m0 x) m

/-- Clear the mark bit of every literal of the list (the unset loop of
internal.cpp lines 2523-2525). -/
def clearMarks (ls : List Int) (m : Int → Bool) : Int → Bool :=
  ls.foldl (fun m0 l => fun x => if x = l then false else m0 x) m

/-- The clause scan of least_conditional_part (internal.cpp lines
2430-2498): redundant clauses are skipped outside proof mode, garbage
clauses always, clauses with a fixed satisfied literal always; an
unsatisfied clause contributes its fresh falsified literals to neg_alpha_c
and marks them. -/
def lcpScan (v : Int → Int) (fx : Int → Bool) (proofMode : Bool) :
    List EClause → ScanOut → ScanOut
  | [], acc => acc
  | c :: cs, acc =>
    if c.redundant && !proofMode then lcpScan v fx proofMode cs acc
    else if c.garbage then lcpScan v fx proofMode cs acc
    else if clauseSkipped v fx c.lits then lcpScan v fx proofMode cs acc
    else
      let r := scanOneClause v fx acc.marks c.lits
      let sat := r.1
      let tou := r.2.1
      let alp := r.2.2
      let acc1 : ScanOut := { acc with touched := acc.touched ++ tou }
      if !sat then
        lcpScan v fx proofMode cs
          { acc1 with
              neg := acc1.neg ++ alp,
              marks := setMarksList alp acc1.marks }
      else lcpScan v fx proofMode cs acc1

/-- Ascending insertion. -/
def insortAsc (x : Int) : List Int → List Int
  | [] => [x]
  | y :: ys => if x ≤ y then x :: y :: ys else y :: insortAsc x ys

/-- Ascending sort. -/
def sortAsc (l : List Int) : List Int := l.foldr insortAsc []

/-- First-occurrence deduplication. -/
def dedupKeep (l : List Int) : List Int :=
  l.foldl (fun acc x => if memB x acc then acc else acc ++ [x]) []

/-- The key iteration order of the std::map times_touched: its distinct
keys in ascending order. -/
def mapKeys (touched : List Int) : List Int := sortAsc (dedupKeep touched)

/-- The key loop of internal.cpp lines 2509-2520: every unmarked key joins
alpha_a, and every unmarked non-decision key contributes the raw candidate
clause neg_alpha_c plus the key. -/
def buildCands (isDec : Int → Bool) (mk : Int → Bool) (neg : List Int) :
    List Int → List (List Int) × List Int
  | [] => ([], [])
  | k :: ks =>
    let (cs, as_) := buildCands isDec mk neg ks
    if mk k then (cs, as_)
    else
      let cs1 := if isDec k then cs else (neg ++ [k]) :: cs
      (cs1, k :: as_)

/-- Descending stable insertion by a key (ties keep the earlier element
first; std::sort leaves the tie order unspecified, so any tie order is a
valid reading and the stable one is chosen). -/
def insByLevelDesc (key : Int → Int) (x : Int) : List Int → List Int
  | [] => [x]
  | y :: ys => if key x ≥ key y then x :: y :: ys else y :: insByLevelDesc key x ys

/-- internal.cpp lines 2336-2341: Internal::sort_vec_by_decision_level. -/
def sortByLevelDesc {σ : Type _} (ops : Ops σ) (s : σ) (v : List Int) :
    List Int :=
  v.foldr (insByLevelDesc (fun l => ops.varLevel s l)) []

/-- internal.cpp lines 2343-2384: Internal::add_clause together with
record_clause.  The literal lit is removed from the autarky and the negated
conditional; with globallearn the sorted clause is learned (a unit when its
size is 1, aborting on the impossible empty clause), and with globalrecord
a line is appended to each of the two streams (observed as an event). -/
def addClause {σ : Type _} (ops : Ops σ) (opts : Opts) (newClause : List Int)
    (lit : Int) (negCond autarky : List Int) (s : σ)
    (learnOp : σ → List Int → σ) (unitOp : σ → Int → σ) :
    Option (σ × List EmitEvent) :=
  let autarky1 := autarky.filter (fun x => x ≠ lit)
  let negCond1 := negCond.filter (fun x => x ≠ lit)
  let cl := sortByLevelDesc ops s newClause
  let learned : Option (σ × List EmitEvent) :=
    if opts.globallearn then
      match cl with
      | [] => none
      | [u] => some (unitOp s u, [EmitEvent.unit u])
      | _ => some (learnOp s cl, [EmitEvent.learned cl])
    else some (s, [])
  match learned with
  | none => none
  | some (s1, ev1) =>
    some (s1,
      if opts.globalrecord then ev1 ++ [EmitEvent.recorded lit negCond1 autarky1]
      else ev1)

/-- The fallback emission loop of internal.cpp lines 2564-2573, iterating
over the first min(globalmaxclause, size) raw candidates; the wall-clock
budget is re-read at the top of each iteration and exceeding it returns
false immediately (even when earlier iterations already emitted). -/
def fallbackLoop {σ : Type _} (ops : Ops σ) (opts : Opts) (fuel : Nat)
    (originalTime : Int) (alphaA : List Int)
    (learnOp : σ → List Int → σ) (unitOp : σ → Int → σ) :
    List (List Int) → σ → List EmitEvent → Bool →
    Option (Bool × σ × List EmitEvent)
  | [], s, evs, adding => some (adding, s, evs)
  | nc :: rest, s, evs, _adding =>
    let tr := ops.timeRead s
    if tr.1 - originalTime > opts.globaltimelim then some (false, tr.2, evs)
    else
      let s1 := tr.2
      let doAdd : σ → Option (Bool × σ × List EmitEvent) := fun s2 =>
        match nc.getLast? with
        | none => none
        | some lit =>
          match addClause ops opts nc lit nc alphaA s2 learnOp unitOp with
          | none => none
          | some (s3, ev) =>
            fallbackLoop ops opts fuel originalTime alphaA learnOp unitOp
              rest s3 (evs ++ ev) true
      if opts.globalfiltertriv then
        match check_if_clause_trivial ops opts.globalmaxlen fuel nc s1 with
        | none => none
        | some (true, s2) =>
          fallbackLoop ops opts fuel originalTime alphaA learnOp unitOp
            rest s2 evs true
        | some (false, s2) => doAdd s2
      else doAdd s1

/-- The single-clause emission branch of internal.cpp lines 2574-2583:
the clause residual plus useful, with alpha_a_useful.back() as the special
literal (that branch is only reached with a non-empty useful list). -/
def singleBranch {σ : Type _} (ops : Ops σ) (opts : Opts) (fuel : Nat)
    (negMinus useful alphaA : List Int)
    (learnOp : σ → List Int → σ) (unitOp : σ → Int → σ) (s : σ) :
    Option (Bool × σ × List EmitEvent) :=
  let nc := negMinus ++ useful
  match useful.getLast? with
  | none => none
  | some lit =>
    let doAdd : σ → Option (Bool × σ × List EmitEvent) := fun s2 =>
      match addClause ops opts nc lit nc alphaA s2 learnOp unitOp with
      | none => none
      | some (s3, ev) => some (true, s3, ev)
    if opts.globalfiltertriv then
      match check_if_clause_trivial ops opts.globalmaxlen fuel nc s with
      | none => none
      | some (true, s2) => some (true, s2, [])
      | some (false, s2) => doAdd s2
    else doAdd s

/-- Step 5 of the derivation (internal.cpp lines 2561-2583): the fallback
loop when no useful antecedent exists (or shrinking is disabled), the
single combined clause otherwise. -/
def lcpAssemble {σ : Type _} (ops : Ops σ) (opts : Opts) (fuel : Nat)
    (originalTime : Int) (clausesToAdd : List (List Int))
    (alphaA useful negMinus : List Int)
    (learnOp : σ → List Int → σ) (unitOp : σ → Int → σ) (s : σ) :
    Option (Bool × σ × List EmitEvent) :=
  if useful.isEmpty || opts.globalnoshrink then
    let n := (min opts.globalmaxclause (clausesToAdd.length : Int)).toNat
    fallbackLoop ops opts fuel originalTime alphaA learnOp unitOp
      (clausesToAdd.take n) s [] false
  else
    singleBranch ops opts fuel negMinus useful alphaA learnOp unitOp s

/-- Steps 4-5 of least_conditional_part after the marks are cleared: sort
alpha_a, run the configured shrink strategy, and assemble.  When
propagate_shrink falls through without a return statement the bool its
caller reads is indeterminate, supplied here as ubChoice. -/
def lcpCore {σ : Type _} (ops : Ops σ) (opts : Opts) (globalTry : List Int)
    (shuffleO : List Int → List Int) (ubChoice : Bool) (fuel : Nat)
    (originalTime : Int) (clausesToAdd : List (List Int))
    (alphaA negAlphaC : List Int)
    (learnOp : σ → List Int → σ) (unitOp : σ → Int → σ) (s : σ) :
    Option (Bool × σ × List EmitEvent) :=
  match custom_sort_alpha_a ops opts shuffleO alphaA s with
  | none => none
  | some (alphaA1, s1) =>
    if opts.globalalphaagreedy && !opts.globalchessheur then
      match greedy_sort_alpha_a ops globalTry alphaA1 negAlphaC s1 with
      | none => none
      | some (useful, negMinus, s2) =>
        lcpAssemble ops opts fuel originalTime clausesToAdd alphaA1 useful
          negMinus learnOp unitOp s2
    else if opts.globalalphaagreedy then
      match greedy_sort_alpha_a_special ops globalTry alphaA1 negAlphaC s1 with
      | none => none
      | some (useful, negMinus, s2) =>
        lcpAssemble ops opts fuel originalTime clausesToAdd alphaA1 useful
          negMinus learnOp unitOp s2
    else if opts.globalbcp then
      -- bcp_shrink receives alpha_a_useful and neg_alpha_c_minus_c0 by
      -- value and mutates no solver state: the call has no effect here,
      -- and the caller continues with its own (empty, unshrunk) copies.
      lcpAssemble ops opts fuel originalTime clausesToAdd alphaA1 []
        negAlphaC learnOp unitOp s1
    else
      match propagate_shrink ops alphaA1 [] negAlphaC s1 with
      | (some false, s2) => some (false, s2, [])
      | (some true, s2) =>
        lcpAssemble ops opts fuel originalTime clausesToAdd alphaA1 []
          negAlphaC learnOp unitOp s2
      | (none, s2) =>
        if ubChoice then
          lcpAssemble ops opts fuel originalTime clausesToAdd alphaA1 []
            negAlphaC learnOp unitOp s2
        else some (false, s2, [])

/-- The full result of one least_conditional_part call: the returned bool,
the final solver state, the globalmarks and the emitted clauses. -/
structure LcpRes (σ : Type) where
  produced : Bool
  state : σ
  marks : Int → Bool
  emitted : List EmitEvent

/-- internal.cpp lines 2422-2588: Internal::least_conditional_part.  The
clause database is read from the state at entry; the marks are cleared at
step 3 (lines 2523-2525) and never touched again on any later path. -/
def least_conditional_part {σ : Type _} (ops : Ops σ) (opts : Opts)
    (proofMode : Bool) (globalTry : List Int)
    (shuffleO : List Int → List Int) (ubChoice : Bool) (fuel : Nat)
    (originalTime : Int) (marks0 : Int → Bool)
    (learnOp : σ → List Int → σ) (unitOp : σ → Int → σ) (s : σ) :
    Option (LcpRes σ) :=
  let sc := lcpScan (ops.val s) (fun l => ops.isFixed s l) proofMode
    (ops.clausesOf s) ⟨[], [], marks0⟩
  let keys := mapKeys sc.touched
  let bc := buildCands (fun l => ops.isDecision s l) sc.marks sc.neg keys
  let marksFinal := clearMarks sc.neg sc.marks
  (lcpCore ops opts globalTry shuffleO ubChoice fuel originalTime bc.1 bc.2
      sc.neg learnOp unitOp s).map
    (fun r => ⟨r.1, r.2.1, marksFinal, r.2.2⟩)

/-! ### Touched and sorted literal collection (internal.cpp lines 694-775) -/

/-- The literal loop of get_touched_literals over one clause: stops at the
first satisfied literal, flags the clause touched on a falsified literal,
and collects unassigned literals that are neither bit-marked nor fixed.
Returns (clause_touched, clause_satisfied, variables_to_consider). -/
def touchedScanClause (v : Int → Int) (fx bit : Int → Bool) :
    List Int → Bool → List Int → Bool × Bool × List Int
  | [], touched, cons => (touched, false, cons)
  | l :: rest, touched, cons =>
    if v l > 0 then (touched, true, cons)
    else if v l < 0 then touchedScanClause v fx bit rest true cons
    else if !(bit l) && !(fx l) then
      touchedScanClause v fx bit rest touched (cons ++ [l])
    else touchedScanClause v fx bit rest touched cons

/-- The clause loop of get_touched_literals (the scratch bits are set while
collecting and cleared at the end of the source function, so they are local
here). -/
def touchedGo (v : Int → Int) (fx : Int → Bool) :
    List EClause → (Int → Bool) → List Int → List Int
  | [], _, acc => acc
  | c :: cs, bit, acc =>
    let r := touchedScanClause v fx bit c.lits false []
    if r.1 && !r.2.1 then
      touchedGo v fx cs (setMarksList r.2.2 bit) (acc ++ r.2.2)
    else touchedGo v fx cs bit acc

/-- internal.cpp lines 694-729: Internal::get_touched_literals; with the
globaltouch optimization disabled it is simply all variables 1..max_var. -/
def get_touched_literals (v : Int → Int) (fx : Int → Bool) (useTouch : Bool)
    (maxVar : Nat) (db : List EClause) : List Int :=
  if !useTouch then (List.range maxVar).map (fun i => ((i : Int) + 1))
  else touchedGo v fx db (fun _ => false) []

/-- Increment the count of the first entry for the given variable, a no-op
when the variable has no entry (the find loop of internal.cpp 753-758). -/
def bumpCount (v : Int) : List (Int × Nat) → List (Int × Nat)
  | [] => []
  | (x, c) :: r => if x = v then (x, c + 1) :: r else (x, c) :: bumpCount v r

/-- Descending stable insertion by occurrence count. -/
def insByCountDesc (x : Int × Nat) : List (Int × Nat) → List (Int × Nat)
  | [] => [x]
  | y :: ys => if x.2 > y.2 then x :: y :: ys else y :: insByCountDesc x ys

/-- internal.cpp lines 734-775: Internal::get_sorted_literals, the
frequency-ordered candidate list (std::sort is unstable; ties are modeled
in their insertion order). -/
def get_sorted_literals {σ : Type _} (ops : Ops σ) (s : σ) (maxVar : Nat) :
    List Int :=
  let counts0 : List (Int × Nat) :=
    (List.range maxVar).filterMap
      (fun i =>
        if ops.active s ((i : Int) + 1) then some (((i : Int) + 1), 0) else none)
  let counts :=
    (ops.clausesOf s).foldl
      (fun cnts c =>
        if c.garbage then cnts
        else
          c.lits.foldl
            (fun cnts l =>
              let var := (l.natAbs : Int)
              if ops.active s var then bumpCount var cnts else cnts)
            cnts)
      counts0
  (counts.foldr insByCountDesc []).map (fun p => p.1)

/-! ### Exhaustive global preprocessing driver (internal.cpp 1292-1502) -/

/-- Parameters shared by every loop of the two driver embeddings. -/
structure GpCtx (σ : Type) where
  ops : Ops σ
  opts : Opts
  proofMode : Bool
  globalTry : List Int
  shuffleO : List Int → List Int
  ubChoice : Bool
  fuel : Nat
  t0 : Int
  learnOp : σ → List Int → σ
  unitOp : σ → Int → σ

/-- Outcome of an inner driver loop: continue with the outer loop, or
return the given status code from the driver. -/
inductive GpStep (σ : Type) where
  | cont (s : σ) (marks : Int → Bool) (evs : List EmitEvent)
  | ret (code : Int) (s : σ) (marks : Int → Bool) (evs : List EmitEvent)

/-- The polarity loop of global_preprocess (internal.cpp lines 1391-1451):
probe i together with polarity * j and run the derivation when both
propagate cleanly. -/
def gpPolar {σ : Type _} (ctx : GpCtx σ) (i j : Int) :
    List Int → σ → (Int → Bool) → List EmitEvent → Option (GpStep σ)
  | [], s, marks, evs => some (.cont s marks evs)
  | pol :: pols, s, marks, evs =>
    if ctx.ops.unsat s then none
    else
      let jp := pol * j
      if ctx.ops.isFixed s i then some (.cont s marks evs)
      else if ctx.ops.isFixed s jp then gpPolar ctx i j pols s marks evs
      else
        match settleNoUnsat ctx.ops ctx.fuel (ctx.ops.backtrack s 0) with
        | none => none
        | some s2 =>
          match ctx.ops.propagate (ctx.ops.assumeDec s2 i) with
          | (s4, false) =>
            match settle ctx.ops ctx.fuel (ctx.ops.analyze s4) with
            | none => none
            | some s6 =>
              if ctx.ops.unsat s6 then some (.ret 20 s6 marks evs)
              else gpPolar ctx i j pols s6 marks evs
          | (s4, true) =>
            if ctx.ops.val s4 jp ≠ 0 then gpPolar ctx i j pols s4 marks evs
            else
              match ctx.ops.propagate (ctx.ops.assumeDec s4 jp) with
              | (s6, false) =>
                match settle ctx.ops ctx.fuel (ctx.ops.analyze s6) with
                | none => none
                | some s8 =>
                  if ctx.ops.unsat s8 then some (.ret 20 s8 marks evs)
                  else gpPolar ctx i j pols s8 marks evs
              | (s6, true) =>
                match least_conditional_part ctx.ops ctx.opts ctx.proofMode
                    ctx.globalTry ctx.shuffleO ctx.ubChoice ctx.fuel ctx.t0
                    marks ctx.learnOp ctx.unitOp s6 with
                | none => none
                | some r =>
                  let s7 := ctx.ops.backtrack r.state 0
                  if ctx.ops.unsat s7 then
                    some (.ret 20 s7 r.marks (evs ++ r.emitted))
                  else gpPolar ctx i j pols s7 r.marks (evs ++ r.emitted)

/-- The touched-literal loop of global_preprocess (internal.cpp lines
1385-1456), with the wall-clock budget re-checked at its top; exceeding it
breaks the loop and control proceeds to the single-literal probes. -/
def gpInner {σ : Type _} (ctx : GpCtx σ) (i : Int) :
    List Int → σ → (Int → Bool) → List EmitEvent → Option (GpStep σ)
  | [], s, marks, evs => some (.cont s marks evs)
  | j :: rest, s, marks, evs =>
    let tr := ctx.ops.timeRead s
    if tr.1 - ctx.t0 > ctx.opts.globaltimelim then some (.cont tr.2 marks evs)
    else if ctx.ops.unsat tr.2 then none
    else
      let pols : List Int := if ctx.opts.globalbothpol then [-1, 1] else [1]
      match gpPolar ctx i j pols tr.2 marks evs with
      | none => none
      | some (.ret c s1 m1 e1) => some (.ret c s1 m1 e1)
      | some (.cont s1 m1 e1) =>
        if ctx.ops.unsat s1 then some (.ret 20 s1 m1 e1)
        else gpInner ctx i rest s1 m1 e1

/-- The candidate loop of global_preprocess (internal.cpp lines 1335-1495),
iterating count = 1..max_var with the wall-clock budget checked at its top,
followed by the result assembly of lines 1496-1501. -/
def gpOuter {σ : Type _} (ctx : GpCtx σ) (maxVar : Nat) (sorted : List Int)
    (randO : Nat → Nat) :
    Nat → Nat → Nat → σ → (Int → Bool) → List EmitEvent →
    Option (Int × σ × List EmitEvent)
  | 0, _count, _rc, s, _marks, evs =>
    some (if ctx.ops.unsat s then 20 else 0, s, evs)
  | cd + 1, count, rc, s, marks, evs =>
    let tr := ctx.ops.timeRead s
    if tr.1 - ctx.t0 > ctx.opts.globaltimelim then
      some (if ctx.ops.unsat tr.2 then 20 else 0, tr.2, evs)
    else
      let s0 := tr.2
      let pick : Option (Int × Nat) :=
        if ctx.opts.globalisort then
          if count < sorted.length then some (sorted.getD count 0, rc) else none
        else if ctx.opts.globalorderi then some ((count : Int), rc)
        else
          let iNoPol := randO rc % maxVar + 1
          let iPol := randO (rc + 1) % 2
          some ((if iPol = 1 then -1 else 1) * (iNoPol : Int), rc + 2)
      match pick with
      | none => some (if ctx.ops.unsat s0 then 20 else 0, s0, evs)
      | some (i, rc1) =>
        let s1 := ctx.ops.backtrack s0 0
        if ctx.ops.isFixed s1 i then gpOuter ctx maxVar sorted randO cd (count + 1) rc1 s1 marks evs
        else
          match ctx.ops.propagate (ctx.ops.assumeDec s1 i) with
          | (s3, false) =>
            let s4 := ctx.ops.analyze s3
            match ctx.ops.propagate s4 with
            | (s5, false) =>
              let s6 := ctx.ops.analyze s5
              some (if ctx.ops.unsat s6 then 20 else 0, s6, evs)
            | (s5, true) => gpOuter ctx maxVar sorted randO cd (count + 1) rc1 s5 marks evs
          | (s3, true) =>
            let touched := get_touched_literals (ctx.ops.val s3)
              (fun l => ctx.ops.isFixed s3 l) ctx.opts.globaltouch maxVar
              (ctx.ops.clausesOf s3)
            match gpInner ctx i touched s3 marks evs with
            | none => none
            | some (.ret c s4 _m4 e4) => some (c, s4, e4)
            | some (.cont s4 m4 e4) =>
              if ctx.ops.unsat s4 then some (20, s4, e4)
              else
                let s5 := ctx.ops.backtrack s4 0
                if ctx.ops.isFixed s5 i then
                  gpOuter ctx maxVar sorted randO cd (count + 1) rc1 s5 m4 e4
                else
                  match ctx.ops.propagate (ctx.ops.assumeDec s5 i) with
                  | (s7, false) =>
                    match settle ctx.ops ctx.fuel (ctx.ops.analyze s7) with
                    | none => none
                    | some s9 =>
                      gpOuter ctx maxVar sorted randO cd (count + 1) rc1
                        (ctx.ops.backtrack s9 0) m4 e4
                  | (s7, true) =>
                    let s8 := ctx.ops.backtrack s7 0
                    if ctx.ops.isFixed s8 i then none
                    else
                      match ctx.ops.propagate (ctx.ops.assumeDec s8 (-i)) with
                      | (s10, false) =>
                        match settle ctx.ops ctx.fuel (ctx.ops.analyze s10) with
                        | none => none
                        | some s12 =>
                          gpOuter ctx maxVar sorted randO cd (count + 1) rc1
                            (ctx.ops.backtrack s12 0) m4 e4
                      | (s10, true) =>
                        if ctx.ops.unsat s10 then some (20, s10, e4)
                        else gpOuter ctx maxVar sorted randO cd (count + 1) rc1 s10 m4 e4

/-- internal.cpp lines 1292-1502: Internal::global_preprocess.  The output
files and the random seed come from the process environment and are outside
the state model; the pseudo-random stream of the unsorted/unordered policy
is the randO oracle, consumed two draws per candidate.  The wall clock is
read once for original_time before the loop. -/
def global_preprocess {σ : Type _} (ops : Ops σ) (opts : Opts)
    (proofMode : Bool) (globalTry : List Int)
    (shuffleO : List Int → List Int) (ubChoice : Bool) (fuel maxVar : Nat)
    (randO : Nat → Nat) (learnOp : σ → List Int → σ) (unitOp : σ → Int → σ)
    (s : σ) : Option (Int × σ × List EmitEvent) :=
  let tr := ops.timeRead s
  let sorted :=
    if opts.globalisort then get_sorted_literals ops tr.2 maxVar else []
  let ctx : GpCtx σ :=
    ⟨ops, opts, proofMode, globalTry, shuffleO, ubChoice, fuel, tr.1,
      learnOp, unitOp⟩
  gpOuter ctx maxVar sorted randO maxVar 1 0 tr.2 (fun _ => false) []

/-! ### Chessboard driver (internal.cpp lines 778-1288) -/

def chessScheduleChunk0 : List (List Int × List Int) := [
  ([1, 10], [-92, -91]),
  ([2, 11], [-93, -92]),
  ([3, 12], [-94, -93]),
  ([4, 13], [-95, -94]),
  ([5, 14], [-96, -95]),
  ([6, 15], [-96, -97]),
  ([16, 7], [-98, -97]),
  ([8, 17], [-99, -98]),
  ([9, 18], [-100, -99]),
  ([10, 19], [-102, -101]),
  ([11, 20], [-103, -102]),
  ([12, 21], [-104, -103]),
  ([13, 22], [-104, -105]),
  ([14, 23], [-106, -105]),
  ([24, 15], [-107, -106])]


def chessScheduleChunk1 : List (List Int × List Int) := [
  ([16, 25], [-108, -107]),
  ([17, 26], [-109, -108]),
  ([18, 27], [-110, -109]),
  ([19, 28], [-112, -111]),
  ([20, 29], [-112, -113]),
  ([21, 30], [-114, -113]),
  ([22, 31], [-115, -114]),
  ([32, 23], [-116, -115]),
  ([24, 33], [-117, -116]),
  ([25, 34], [-118, -117]),
  ([26, 35], [-119, -118]),
  ([27, 36], [-120, -119]),
  ([28, 37], [-122, -121]),
  ([29, 38], [-123, -122]),
  ([30, 39], [-124, -123])]


def chessScheduleChunk2 : List (List Int × List Int) := [
  ([40, 31], [-125, -124]),
  ([32, 41], [-126, -125]),
  ([33, 42], [-127, -126]),
  ([34, 43], [-128, -127]),
  ([35, 44], [-128, -129]),
  ([36, 45], [-130, -129]),
  ([37, 46], [-132, -131]),
  ([38, 47], [-133, -132]),
  ([48, 39], [-134, -133]),
  ([40, 49], [-135, -134]),
  ([41, 50], [-136, -135]),
  ([42, 51], [-136, -137]),
  ([43, 52], [-138, -137]),
  ([44, 53], [-139, -138]),
  ([45, 54], [-140, -139])]


def chessScheduleChunk3 : List (List Int × List Int) := [
  ([46, 55], [-142, -141]),
  ([56, 47], [-143, -142]),
  ([48, 57], [-144, -143]),
  ([49, 58], [-144, -145]),
  ([50, 59], [-146, -145]),
  ([51, 60], [-147, -146]),
  ([52, 61], [-148, -147]),
  ([53, 62], [-149, -148]),
  ([54, 63], [-150, -149]),
  ([64, 55], [-152, -151]),
  ([56, 65], [-152, -153]),
  ([57, 66], [-154, -153]),
  ([58, 67], [-155, -154]),
  ([59, 68], [-156, -155]),
  ([60, 69], [-157, -156])]


def chessScheduleChunk4 : List (List Int × List Int) := [
  ([61, 70], [-158, -157]),
  ([62, 71], [-159, -158]),
  ([72, 63], [-160, -159]),
  ([64, 73], [-162, -161]),
  ([65, 74], [-163, -162]),
  ([66, 75], [-164, -163]),
  ([67, 76], [-165, -164]),
  ([68, 77], [-166, -165]),
  ([69, 78], [-167, -166]),
  ([70, 79], [-168, -167]),
  ([80, 71], [-168, -169]),
  ([72, 81], [-170, -169]),
  ([73, 82], [-172, -171]),
  ([74, 83], [-173, -172]),
  ([75, 84], [-174, -173])]


def chessScheduleChunk5 : List (List Int × List Int) := [
  ([76, 85], [-175, -174]),
  ([77, 86], [-176, -175]),
  ([78, 87], [-176, -177]),
  ([88, 79], [-178, -177]),
  ([80, 89], [-179, -178]),
  ([81, 90], [-180, -179]),
  ([8, 17, 100], [-18, -98, -9]),
  ([17, 26, 110], [-108, -27, -18]),
  ([120, 26, 35], [-118, -36, -27]),
  ([130, 35, 44], [-128, -45, -36]),
  ([140, 44, 53], [-54, -45, -138]),
  ([150, 53, 62], [-63, -54, -148]),
  ([160, 62, 71], [-72, -63, -158]),
  ([80, 170, 71], [-168, -72, -81]),
  ([80, 89, 180], [-90, -178, -81])]


def chessScheduleChunk6 : List (List Int × List Int) := [
  ([16, 9, 18, 7], [-8, -17, -100, -97]),
  ([16, 99, 7], [-8, -17, -97]),
  ([16, 25, 18, 27], [-110, -107, -26, -17]),
  ([16, 25, 109], [-107, -26, -17]),
  ([25, 34, 27, 36], [-120, -117, -35, -26]),
  ([25, 34, 119], [-117, -35, -26]),
  ([34, 43, 36, 45], [-127, -44, -35, -130]),
  ([129, 34, 43], [-127, -44, -35]),
  ([43, 52, 45, 54], [-140, -53, -44, -137]),
  ([43, 52, 139], [-53, -44, -137]),
  ([52, 61, 54, 63], [-62, -53, -147, -150]),
  ([52, 61, 149], [-62, -53, -147]),
  ([72, 61, 70, 63], [-160, -71, -62, -157]),
  ([61, 70, 159], [-71, -62, -157]),
  ([72, 81, 70, 79], [-80, -167, -71, -170])]


def chessScheduleChunk7 : List (List Int × List Int) := [
  ([169, 70, 79], [-80, -167, -71]),
  ([88, 81, 90, 79], [-80, -89, -180, -177]),
  ([88, 179, 79], [-80, -89, -177]),
  ([100, 6, 8, 15, 17], [-96, -18, -16, -9, -7]),
  ([8, 17, 6, 15], [-96, -7, -99, -16]),
  ([98, 6, 15], [-96, -7, -16]),
  ([110, 15, 17, 24, 26], [-27, -25, -18, -16, -106]),
  ([24, 17, 26, 15], [-16, -109, -106, -25]),
  ([24, 108, 15], [-16, -106, -25]),
  ([33, 35, 24, 26, 120], [-27, -25, -116, -36, -34]),
  ([24, 33, 26, 35], [-119, -116, -34, -25]),
  ([24, 33, 118], [-116, -34, -25]),
  ([33, 130, 35, 42, 44], [-126, -45, -43, -36, -34]),
  ([33, 42, 35, 44], [-126, -43, -34, -129]),
  ([128, 33, 42], [-126, -43, -34])]


def chessScheduleChunk8 : List (List Int × List Int) := [
  ([42, 140, 44, 51, 53], [-54, -52, -45, -43, -136]),
  ([42, 51, 44, 53], [-136, -139, -52, -43]),
  ([42, 51, 138], [-136, -52, -43]),
  ([51, 53, 150, 60, 62], [-63, -61, -54, -52, -146]),
  ([51, 60, 53, 62], [-61, -52, -146, -149]),
  ([148, 51, 60], [-61, -52, -146]),
  ([160, 69, 71, 60, 62], [-63, -61, -156, -72, -70]),
  ([60, 69, 62, 71], [-159, -70, -61, -156]),
  ([60, 69, 158], [-70, -61, -156]),
  ([69, 71, 170, 78, 80], [-81, -79, -72, -70, -166]),
  ([80, 69, 78, 71], [-70, -79, -166, -169]),
  ([168, 69, 78], [-70, -79, -166]),
  ([78, 80, 180, 87, 89], [-90, -88, -81, -176, -79]),
  ([80, 89, 78, 87], [-176, -79, -179, -88]),
  ([178, 78, 87], [-176, -79, -88])]


def chessScheduleChunk9 : List (List Int × List Int) := [
  ([5, 7, 9, 14, 16, 18], [-95, -17, -15, -8, -6, -100]),
  ([99, 5, 7, 14, 16], [-95, -17, -15, -8, -6]),
  ([16, 5, 14, 7], [-95, -6, -15, -98]),
  ([97, 5, 14], [-95, -6, -15]),
  ([14, 16, 18, 23, 25, 27], [-26, -24, -17, -15, -110, -105]),
  ([109, 14, 16, 23, 25], [-26, -24, -17, -15, -105]),
  ([16, 25, 14, 23], [-24, -15, -108, -105]),
  ([107, 14, 23], [-24, -15, -105]),
  ([32, 34, 36, 23, 25, 27], [-26, -24, -120, -115, -35, -33]),
  ([32, 34, 23, 119, 25], [-26, -24, -115, -35, -33]),
  ([32, 25, 34, 23], [-24, -118, -115, -33]),
  ([32, 117, 23], [-24, -115, -33]),
  ([32, 34, 36, 41, 43, 45], [-125, -44, -42, -35, -130, -33]),
  ([32, 129, 34, 41, 43], [-125, -44, -42, -35, -33]),
  ([32, 41, 34, 43], [-128, -125, -42, -33])]


def chessScheduleChunk10 : List (List Int × List Int) := [
  ([32, 41, 127], [-125, -42, -33]),
  ([41, 43, 45, 50, 52, 54], [-53, -51, -44, -140, -42, -135]),
  ([41, 43, 139, 50, 52], [-53, -51, -44, -42, -135]),
  ([41, 50, 43, 52], [-135, -138, -51, -42]),
  ([41, 50, 137], [-135, -51, -42]),
  ([50, 52, 54, 59, 61, 63], [-62, -60, -150, -53, -51, -145]),
  ([50, 52, 149, 59, 61], [-62, -60, -53, -51, -145]),
  ([50, 59, 52, 61], [-148, -60, -51, -145]),
  ([50, 59, 147], [-60, -51, -145]),
  ([68, 70, 72, 59, 61, 63], [-160, -62, -60, -155, -71, -69]),
  ([68, 70, 59, 61, 159], [-62, -60, -155, -71, -69]),
  ([59, 68, 61, 70], [-158, -69, -60, -155]),
  ([59, 68, 157], [-69, -60, -155]),
  ([68, 70, 72, 77, 79, 81], [-69, -80, -78, -170, -71, -165]),
  ([68, 70, 169, 77, 79], [-69, -80, -78, -71, -165])]


def chessScheduleChunk11 : List (List Int × List Int) := [
  ([68, 77, 70, 79], [-168, -78, -165, -69]),
  ([68, 77, 167], [-78, -165, -69]),
  ([77, 79, 81, 86, 88, 90], [-89, -87, -180, -80, -175, -78]),
  ([77, 79, 179, 86, 88], [-89, -87, -80, -175, -78]),
  ([88, 77, 86, 79], [-175, -78, -87, -178]),
  ([177, 77, 86], [-175, -78, -87]),
  ([4, 100, 6, 8, 13, 15, 17], [-94, -18, -16, -14, -9, -7, -5]),
  ([4, 6, 8, 13, 15, 17], [-94, -16, -14, -7, -5, -99]),
  ([98, 4, 6, 13, 15], [-94, -16, -14, -7, -5]),
  ([4, 13, 6, 15], [-14, -94, -5, -97]),
  ([96, 4, 13], [-14, -94, -5]),
  ([13, 110, 15, 17, 22, 24, 26], [-27, -25, -23, -18, -16, -14, -104]),
  ([13, 15, 17, 22, 24, 26], [-25, -23, -16, -14, -109, -104]),
  ([108, 13, 15, 22, 24], [-25, -23, -16, -14, -104]),
  ([24, 13, 22, 15], [-104, -23, -14, -107])]


def chessScheduleChunk12 : List (List Int × List Int) := [
  ([106, 13, 22], [-104, -23, -14]),
  ([33, 35, 22, 24, 26, 120, 31], [-32, -27, -25, -23, -114, -36, -34]),
  ([33, 35, 22, 24, 26, 31], [-32, -25, -23, -119, -114, -34]),
  ([33, 118, 22, 24, 31], [-32, -25, -23, -114, -34]),
  ([24, 33, 22, 31], [-32, -23, -117, -114]),
  ([116, 22, 31], [-32, -23, -114]),
  ([33, 130, 35, 40, 42, 44, 31], [-32, -124, -45, -43, -41, -36, -34]),
  ([33, 35, 40, 42, 44, 31], [-32, -124, -43, -41, -34, -129]),
  ([128, 33, 40, 42, 31], [-32, -124, -43, -41, -34]),
  ([40, 33, 42, 31], [-32, -127, -124, -41]),
  ([40, 126, 31], [-32, -124, -41]),
  ([40, 42, 44, 140, 49, 51, 53], [-54, -52, -50, -45, -43, -41, -134]),
  ([40, 42, 44, 49, 51, 53], [-52, -50, -43, -139, -41, -134]),
  ([40, 42, 138, 49, 51], [-52, -50, -43, -41, -134]),
  ([40, 49, 42, 51], [-134, -137, -50, -41])]


def chessScheduleChunk13 : List (List Int × List Int) := [
  ([40, 49, 136], [-134, -50, -41]),
  ([49, 51, 53, 150, 58, 60, 62], [-63, -61, -59, -54, -52, -50, -144]),
  ([49, 51, 53, 58, 60, 62], [-61, -59, -149, -52, -50, -144]),
  ([49, 51, 148, 58, 60], [-61, -59, -52, -50, -144]),
  ([49, 58, 51, 60], [-144, -147, -59, -50]),
  ([49, 58, 146], [-144, -59, -50]),
  ([160, 67, 69, 71, 58, 60, 62], [-63, -61, -59, -154, -72, -70, -68]),
  ([67, 69, 71, 58, 60, 62], [-159, -61, -59, -154, -70, -68]),
  ([67, 69, 58, 60, 158], [-61, -59, -154, -70, -68]),
  ([58, 67, 60, 69], [-157, -68, -59, -154]),
  ([58, 67, 156], [-68, -59, -154]),
  ([67, 69, 71, 170, 76, 78, 80], [-164, -81, -79, -77, -72, -70, -68]),
  ([67, 69, 71, 76, 78, 80], [-164, -79, -77, -169, -70, -68]),
  ([67, 69, 168, 76, 78], [-164, -79, -77, -70, -68]),
  ([67, 76, 69, 78], [-167, -68, -77, -164])]


def chessScheduleChunk14 : List (List Int × List Int) := [
  ([67, 76, 166], [-68, -77, -164]),
  ([76, 78, 80, 180, 85, 87, 89], [-90, -88, -86, -81, -79, -174, -77]),
  ([76, 78, 80, 85, 87, 89], [-88, -86, -179, -79, -174, -77]),
  ([76, 78, 178, 85, 87], [-88, -86, -79, -174, -77]),
  ([76, 85, 78, 87], [-86, -174, -77, -177]),
  ([176, 76, 85], [-86, -174, -77]),
  ([3, 5, 7, 9, 12, 14, 16, 18], [-93, -100, -17, -15, -13, -8, -6, -4]),
  ([3, 99, 5, 7, 12, 14, 16], [-93, -17, -15, -13, -8, -6, -4]),
  ([3, 5, 7, 12, 14, 16], [-93, -15, -13, -6, -4, -98]),
  ([97, 3, 5, 12, 14], [-93, -15, -13, -6, -4]),
  ([3, 12, 5, 14], [-96, -93, -4, -13]),
  ([3, 12, 95], [-93, -4, -13]),
  ([12, 14, 16, 18, 21, 23, 25, 27], [-26, -24, -22, -17, -15, -110, -13, -103]),
  ([12, 109, 14, 16, 21, 23, 25], [-26, -24, -22, -17, -15, -13, -103]),
  ([12, 14, 16, 21, 23, 25], [-24, -22, -15, -13, -108, -103])]


def chessScheduleChunk15 : List (List Int × List Int) := [
  ([107, 12, 14, 21, 23], [-24, -22, -15, -13, -103]),
  ([12, 21, 14, 23], [-103, -22, -13, -106]),
  ([105, 12, 21], [-103, -22, -13]),
  ([32, 34, 36, 21, 23, 25, 27, 30], [-31, -26, -24, -120, -22, -113, -35, -33]),
  ([32, 34, 119, 21, 23, 25, 30], [-31, -26, -24, -22, -113, -35, -33]),
  ([32, 34, 21, 23, 25, 30], [-31, -24, -22, -118, -113, -33]),
  ([32, 117, 21, 23, 30], [-31, -24, -22, -113, -33]),
  ([32, 21, 30, 23], [-31, -22, -116, -113]),
  ([115, 21, 30], [-31, -22, -113]),
  ([32, 34, 36, 39, 41, 43, 45, 30], [-31, -123, -44, -42, -40, -35, -130, -33]),
  ([32, 129, 34, 39, 41, 43, 30], [-31, -123, -44, -42, -40, -35, -33]),
  ([32, 34, 39, 41, 43, 30], [-128, -31, -123, -42, -40, -33]),
  ([32, 39, 41, 30, 127], [-31, -123, -42, -40, -33]),
  ([32, 41, 30, 39], [-40, -31, -126, -123]),
  ([125, 30, 39], [-40, -31, -123])]


def chessScheduleChunk16 : List (List Int × List Int) := [
  ([39, 41, 43, 45, 48, 50, 52, 54], [-53, -51, -49, -44, -140, -42, -40, -133]),
  ([39, 41, 43, 139, 48, 50, 52], [-53, -51, -49, -44, -42, -40, -133]),
  ([39, 41, 43, 48, 50, 52], [-51, -49, -42, -138, -40, -133]),
  ([39, 41, 137, 48, 50], [-51, -49, -42, -40, -133]),
  ([48, 41, 50, 39], [-40, -133, -136, -49]),
  ([48, 135, 39], [-40, -133, -49]),
  ([48, 50, 52, 54, 57, 59, 61, 63], [-62, -60, -58, -150, -53, -51, -49, -143]),
  ([48, 50, 52, 149, 57, 59, 61], [-62, -60, -58, -53, -51, -49, -143]),
  ([48, 50, 52, 57, 59, 61], [-60, -58, -148, -51, -49, -143]),
  ([48, 50, 147, 57, 59], [-60, -58, -51, -49, -143]),
  ([48, 57, 50, 59], [-143, -146, -58, -49]),
  ([48, 57, 145], [-143, -58, -49]),
  ([66, 68, 70, 72, 57, 59, 61, 63], [-160, -62, -60, -58, -153, -71, -69, -67]),
  ([66, 68, 70, 57, 59, 61, 159], [-62, -60, -58, -153, -71, -69, -67]),
  ([66, 68, 70, 57, 59, 61], [-158, -60, -58, -153, -69, -67])]


def chessScheduleChunk17 : List (List Int × List Int) := [
  ([66, 68, 57, 59, 157], [-60, -58, -153, -69, -67]),
  ([57, 66, 59, 68], [-156, -67, -58, -153]),
  ([57, 66, 155], [-67, -58, -153]),
  ([66, 68, 70, 72, 75, 77, 79, 81], [-67, -80, -78, -76, -170, -71, -69, -163]),
  ([66, 68, 70, 169, 75, 77, 79], [-67, -80, -78, -76, -71, -69, -163]),
  ([66, 68, 70, 75, 77, 79], [-67, -78, -76, -168, -69, -163]),
  ([66, 68, 167, 75, 77], [-67, -78, -76, -69, -163]),
  ([66, 75, 68, 77], [-166, -76, -163, -67]),
  ([66, 75, 165], [-76, -163, -67]),
  ([75, 77, 79, 81, 84, 86, 88, 90], [-89, -87, -85, -180, -80, -78, -173, -76]),
  ([75, 77, 79, 179, 84, 86, 88], [-89, -87, -85, -80, -78, -173, -76]),
  ([75, 77, 79, 84, 86, 88], [-87, -85, -178, -78, -173, -76]),
  ([75, 77, 177, 84, 86], [-87, -85, -78, -173, -76]),
  ([75, 84, 77, 86], [-176, -173, -76, -85]),
  ([75, 84, 175], [-173, -76, -85])]


def chessScheduleChunk18 : List (List Int × List Int) := [
  ([2, 4, 100, 6, 8, 11, 13, 15, 17], [-92, -18, -16, -14, -12, -9, -7, -5, -3]),
  ([2, 4, 6, 8, 11, 13, 15, 17], [-92, -99, -16, -14, -12, -7, -5, -3]),
  ([2, 98, 4, 6, 11, 13, 15], [-92, -16, -14, -12, -7, -5, -3]),
  ([2, 4, 6, 11, 13, 15], [-92, -14, -12, -5, -3, -97]),
  ([96, 2, 4, 11, 13], [-92, -14, -12, -5, -3]),
  ([2, 11, 4, 13], [-95, -12, -92, -3]),
  ([2, 11, 94], [-12, -92, -3]),
  ([11, 13, 110, 15, 17, 20, 22, 24, 26], [-27, -25, -23, -21, -18, -16, -14, -12, -102]),
  ([11, 13, 15, 17, 20, 22, 24, 26], [-25, -23, -21, -16, -14, -109, -12, -102]),
  ([11, 108, 13, 15, 20, 22, 24], [-25, -23, -21, -16, -14, -12, -102]),
  ([11, 13, 15, 20, 22, 24], [-23, -21, -14, -12, -107, -102]),
  ([106, 11, 13, 20, 22], [-23, -21, -14, -12, -102]),
  ([11, 20, 13, 22], [-102, -21, -12, -105]),
  ([104, 11, 20], [-102, -21, -12]),
  ([33, 35, 20, 22, 24, 26, 120, 29, 31], [-32, -30, -27, -25, -23, -21, -112, -36, -34])]


def chessScheduleChunk19 : List (List Int × List Int) := [
  ([33, 35, 20, 22, 24, 26, 29, 31], [-32, -30, -25, -23, -119, -21, -112, -34]),
  ([33, 20, 22, 118, 24, 29, 31], [-32, -30, -25, -23, -21, -112, -34]),
  ([33, 20, 22, 24, 29, 31], [-32, -30, -23, -21, -117, -112]),
  ([116, 20, 22, 29, 31], [-32, -30, -23, -21, -112]),
  ([20, 29, 22, 31], [-112, -30, -21, -115]),
  ([114, 20, 29], [-112, -30, -21]),
  ([33, 130, 35, 38, 40, 42, 44, 29, 31], [-32, -30, -122, -45, -43, -41, -39, -36, -34]),
  ([33, 35, 38, 40, 42, 44, 29, 31], [-32, -30, -122, -43, -41, -39, -34, -129]),
  ([128, 33, 38, 40, 42, 29, 31], [-32, -30, -122, -43, -41, -39, -34]),
  ([33, 38, 40, 42, 29, 31], [-32, -127, -30, -122, -41, -39]),
  ([38, 40, 29, 126, 31], [-32, -30, -122, -41, -39]),
  ([40, 29, 38, 31], [-39, -30, -125, -122]),
  ([124, 29, 38], [-39, -30, -122]),
  ([38, 40, 42, 44, 140, 47, 49, 51, 53], [-54, -52, -50, -48, -45, -43, -41, -39, -132]),
  ([38, 40, 42, 44, 47, 49, 51, 53], [-52, -50, -48, -43, -139, -41, -39, -132])]


def chessScheduleChunk20 : List (List Int × List Int) := [
  ([38, 40, 42, 138, 47, 49, 51], [-52, -50, -48, -43, -41, -39, -132]),
  ([38, 40, 42, 47, 49, 51], [-50, -137, -48, -41, -39, -132]),
  ([38, 40, 136, 47, 49], [-50, -48, -41, -39, -132]),
  ([40, 49, 38, 47], [-48, -39, -132, -135]),
  ([134, 38, 47], [-48, -39, -132]),
  ([47, 49, 51, 53, 150, 56, 58, 60, 62], [-63, -61, -59, -57, -54, -52, -50, -48, -142]),
  ([47, 49, 51, 53, 56, 58, 60, 62], [-61, -59, -57, -149, -52, -50, -48, -142]),
  ([47, 49, 51, 148, 56, 58, 60], [-61, -59, -57, -52, -50, -48, -142]),
  ([47, 49, 51, 56, 58, 60], [-59, -57, -147, -50, -48, -142]),
  ([47, 49, 146, 56, 58], [-59, -57, -50, -48, -142]),
  ([56, 49, 58, 47], [-48, -142, -145, -57]),
  ([56, 144, 47], [-48, -142, -57]),
  ([160, 65, 67, 69, 71, 56, 58, 60, 62], [-63, -61, -59, -57, -152, -72, -70, -68, -66]),
  ([65, 67, 69, 71, 56, 58, 60, 62], [-159, -61, -59, -57, -152, -70, -68, -66]),
  ([65, 67, 69, 56, 58, 60, 158], [-61, -59, -57, -152, -70, -68, -66])]


def chessScheduleChunk21 : List (List Int × List Int) := [
  ([65, 67, 69, 56, 58, 60], [-157, -59, -57, -152, -68, -66]),
  ([65, 67, 56, 58, 156], [-59, -57, -152, -68, -66]),
  ([56, 65, 58, 67], [-152, -155, -66, -57]),
  ([56, 65, 154], [-152, -66, -57]),
  ([65, 67, 69, 71, 74, 170, 76, 78, 80], [-81, -162, -79, -77, -75, -72, -70, -68, -66]),
  ([65, 67, 69, 71, 74, 76, 78, 80], [-162, -79, -77, -75, -169, -70, -68, -66]),
  ([65, 67, 69, 168, 74, 76, 78], [-162, -79, -77, -75, -70, -68, -66]),
  ([65, 67, 69, 74, 76, 78], [-162, -77, -75, -167, -68, -66]),
  ([65, 67, 166, 74, 76], [-162, -77, -75, -68, -66]),
  ([65, 74, 67, 76], [-165, -66, -75, -162]),
  ([65, 74, 164], [-66, -75, -162]),
  ([74, 76, 78, 80, 83, 180, 85, 87, 89], [-90, -88, -86, -84, -81, -79, -77, -172, -75]),
  ([74, 76, 78, 80, 83, 85, 87, 89], [-88, -86, -84, -179, -79, -77, -172, -75]),
  ([74, 76, 78, 178, 83, 85, 87], [-88, -86, -84, -79, -77, -172, -75]),
  ([74, 76, 78, 83, 85, 87], [-86, -84, -177, -77, -172, -75])]


def chessScheduleChunk22 : List (List Int × List Int) := [
  ([74, 76, 176, 83, 85], [-86, -84, -77, -172, -75]),
  ([74, 83, 76, 85], [-175, -84, -172, -75]),
  ([74, 83, 174], [-84, -172, -75]),
  ([1, 3, 5, 7, 9, 10, 12, 14, 16, 18], [-91, -100, -17, -15, -13, -11, -8, -6, -4, -2]),
  ([1, 3, 99, 5, 7, 10, 12, 14, 16], [-91, -17, -15, -13, -11, -8, -6, -4, -2]),
  ([1, 3, 5, 7, 10, 12, 14, 16], [-91, -15, -13, -98, -11, -6, -4, -2]),
  ([1, 97, 3, 5, 10, 12, 14], [-91, -15, -13, -11, -6, -4, -2]),
  ([1, 3, 5, 10, 12, 14], [-96, -91, -13, -11, -4, -2]),
  ([1, 3, 10, 12, 95], [-91, -13, -11, -4, -2]),
  ([1, 10, 3, 12], [-11, -94, -91, -2]),
  ([1, 10, 93], [-11, -91, -2]),
  ([10, 12, 14, 16, 18, 19, 21, 23, 25, 27], [-26, -24, -22, -20, -17, -15, -110, -13, -11, -101]),
  ([10, 12, 109, 14, 16, 19, 21, 23, 25], [-26, -24, -22, -20, -17, -15, -13, -11, -101]),
  ([10, 12, 14, 16, 19, 21, 23, 25], [-24, -22, -20, -15, -13, -108, -11, -101]),
  ([10, 107, 12, 14, 19, 21, 23], [-24, -22, -20, -15, -13, -11, -101])]


def chessScheduleChunk23 : List (List Int × List Int) := [
  ([10, 12, 14, 19, 21, 23], [-22, -20, -13, -11, -106, -101]),
  ([105, 10, 12, 19, 21], [-22, -20, -13, -11, -101]),
  ([10, 19, 12, 21], [-104, -101, -20, -11]),
  ([10, 19, 103], [-101, -20, -11]),
  ([32, 34, 36, 19, 21, 23, 25, 27, 28, 30], [-31, -29, -26, -24, -120, -22, -20, -111, -35, -33]),
  ([32, 34, 19, 119, 21, 23, 25, 28, 30], [-31, -29, -26, -24, -22, -20, -111, -35, -33]),
  ([32, 34, 19, 21, 23, 25, 28, 30], [-31, -29, -24, -22, -118, -20, -111, -33]),
  ([32, 19, 21, 117, 23, 28, 30], [-31, -29, -24, -22, -20, -111, -33]),
  ([32, 19, 21, 23, 28, 30], [-31, -29, -22, -20, -116, -111]),
  ([115, 19, 21, 28, 30], [-31, -29, -22, -20, -111]),
  ([19, 28, 21, 30], [-111, -29, -20, -114]),
  ([113, 19, 28], [-111, -29, -20]),
  ([32, 34, 36, 37, 39, 41, 43, 45, 28, 30], [-31, -29, -121, -44, -42, -40, -38, -35, -130, -33]),
  ([32, 129, 34, 37, 39, 41, 43, 28, 30], [-31, -29, -121, -44, -42, -40, -38, -35, -33]),
  ([32, 34, 37, 39, 41, 43, 28, 30], [-128, -31, -29, -121, -42, -40, -38, -33])]


def chessScheduleChunk24 : List (List Int × List Int) := [
  ([32, 37, 39, 41, 28, 30, 127], [-31, -29, -121, -42, -40, -38, -33]),
  ([32, 37, 39, 41, 28, 30], [-31, -126, -29, -121, -40, -38]),
  ([37, 39, 28, 125, 30], [-31, -29, -121, -40, -38]),
  ([28, 37, 30, 39], [-38, -29, -124, -121]),
  ([123, 28, 37], [-38, -29, -121]),
  ([37, 39, 41, 43, 45, 46, 48, 50, 52, 54], [-53, -51, -49, -47, -44, -140, -42, -40, -38, -131]),
  ([37, 39, 41, 43, 139, 46, 48, 50, 52], [-53, -51, -49, -47, -44, -42, -40, -38, -131]),
  ([37, 39, 41, 43, 46, 48, 50, 52], [-51, -49, -47, -42, -138, -40, -38, -131]),
  ([37, 39, 41, 137, 46, 48, 50], [-51, -49, -47, -42, -40, -38, -131]),
  ([37, 39, 41, 46, 48, 50], [-49, -47, -136, -40, -38, -131]),
  ([37, 135, 39, 46, 48], [-49, -47, -40, -38, -131]),
  ([48, 37, 46, 39], [-47, -38, -131, -134]),
  ([37, 46, 133], [-47, -38, -131]),
  ([46, 48, 50, 52, 54, 55, 57, 59, 61, 63], [-62, -60, -58, -56, -150, -53, -51, -49, -47, -141]),
  ([46, 48, 50, 52, 149, 55, 57, 59, 61], [-62, -60, -58, -56, -53, -51, -49, -47, -141])]


def chessScheduleChunk25 : List (List Int × List Int) := [
  ([46, 48, 50, 52, 55, 57, 59, 61], [-60, -58, -56, -148, -51, -49, -47, -141]),
  ([46, 48, 50, 147, 55, 57, 59], [-60, -58, -56, -51, -49, -47, -141]),
  ([46, 48, 50, 55, 57, 59], [-58, -56, -146, -49, -47, -141]),
  ([46, 48, 145, 55, 57], [-58, -56, -49, -47, -141]),
  ([48, 57, 46, 55], [-56, -47, -141, -144]),
  ([143, 46, 55], [-56, -47, -141]),
  ([64, 66, 68, 70, 72, 55, 57, 59, 61, 63], [-160, -62, -60, -58, -56, -151, -71, -69, -67, -65]),
  ([64, 66, 68, 70, 55, 57, 59, 61, 159], [-62, -60, -58, -56, -151, -71, -69, -67, -65]),
  ([64, 66, 68, 70, 55, 57, 59, 61], [-158, -60, -58, -56, -151, -69, -67, -65]),
  ([64, 66, 68, 55, 57, 59, 157], [-60, -58, -56, -151, -69, -67, -65]),
  ([64, 66, 68, 55, 57, 59], [-156, -58, -56, -151, -67, -65]),
  ([64, 66, 55, 57, 155], [-58, -56, -151, -67, -65]),
  ([64, 57, 66, 55], [-56, -151, -154, -65]),
  ([64, 153, 55], [-56, -151, -65]),
  ([64, 66, 68, 70, 72, 73, 75, 77, 79, 81], [-80, -78, -76, -74, -161, -170, -71, -69, -67, -65])]


def chessScheduleChunk26 : List (List Int × List Int) := [
  ([64, 66, 68, 70, 73, 169, 75, 77, 79], [-80, -78, -76, -74, -161, -71, -69, -67, -65]),
  ([64, 66, 68, 70, 73, 75, 77, 79], [-78, -76, -74, -161, -168, -69, -67, -65]),
  ([64, 66, 68, 167, 73, 75, 77], [-78, -76, -74, -161, -69, -67, -65]),
  ([64, 66, 68, 73, 75, 77], [-76, -74, -161, -166, -67, -65]),
  ([64, 66, 165, 73, 75], [-76, -74, -161, -67, -65]),
  ([64, 73, 66, 75], [-65, -164, -74, -161]),
  ([64, 73, 163], [-65, -74, -161]),
  ([73, 75, 77, 79, 81, 82, 84, 86, 88, 90], [-89, -87, -85, -180, -83, -80, -78, -76, -171, -74]),
  ([73, 75, 77, 79, 82, 179, 84, 86, 88], [-89, -87, -85, -83, -80, -78, -76, -171, -74]),
  ([73, 75, 77, 79, 82, 84, 86, 88], [-87, -85, -83, -178, -78, -76, -171, -74]),
  ([73, 75, 77, 177, 82, 84, 86], [-87, -85, -83, -78, -76, -171, -74]),
  ([73, 75, 77, 82, 84, 86], [-85, -83, -176, -76, -171, -74]),
  ([73, 75, 175, 82, 84], [-85, -83, -76, -171, -74]),
  ([73, 82, 75, 84], [-174, -171, -74, -83]),
  ([73, 82, 173], [-171, -74, -83])]

/-- internal.cpp lines 803-1209: the hard-coded assumption schedule of the
chessboard heuristic, each entry an (assumption batch, clause pattern)
pair; the pattern becomes the global_try preferred order of the
derivation.  The table is split into chunks purely to keep elaboration
fast; chessSchedule is their concatenation in source order. -/
def chessSchedule : List (List Int × List Int) :=
  chessScheduleChunk0 ++ chessScheduleChunk1 ++ chessScheduleChunk2 ++ chessScheduleChunk3 ++ chessScheduleChunk4 ++ chessScheduleChunk5 ++ chessScheduleChunk6 ++ chessScheduleChunk7 ++ chessScheduleChunk8 ++ chessScheduleChunk9 ++ chessScheduleChunk10 ++ chessScheduleChunk11 ++ chessScheduleChunk12 ++ chessScheduleChunk13 ++ chessScheduleChunk14 ++ chessScheduleChunk15 ++ chessScheduleChunk16 ++ chessScheduleChunk17 ++ chessScheduleChunk18 ++ chessScheduleChunk19 ++ chessScheduleChunk20 ++ chessScheduleChunk21 ++ chessScheduleChunk22 ++ chessScheduleChunk23 ++ chessScheduleChunk24 ++ chessScheduleChunk25 ++ chessScheduleChunk26

/-- The assumption loop over one schedule batch (internal.cpp lines
1219-1252): fixed or already-assigned literals are skipped, each remaining
literal is assumed and propagated, and a conflict analyzes to fixpoint and
gives up on the batch (try_learn = false). -/
def chessBatchAsses {σ : Type _} (ops : Ops σ) (fuel : Nat) :
    List Int → σ → Option (Bool × σ)
  | [], s => some (true, s)
  | ass :: rest, s =>
    if ops.isFixed s ass then chessBatchAsses ops fuel rest s
    else if ops.val s ass ≠ 0 then chessBatchAsses ops fuel rest s
    else
      match ops.propagate (ops.assumeDec s ass) with
      | (s2, true) => chessBatchAsses ops fuel rest s2
      | (s2, false) =>
        match settle ops fuel (ops.analyze s2) with
        | none => none
        | some s4 => some (false, s4)

/-- The batch loop of global_preprocess_chess (internal.cpp lines
1212-1284): destructure the batch and its clause pattern (the pattern is
assigned to the global_try field consumed by the derivation), backtrack,
assume the batch, run the derivation if no conflict occurred, then
backtrack, re-propagate, and stop with 20 once unsat. -/
def chessGo {σ : Type _} (ctx : GpCtx σ) :
    List (List Int × List Int) → σ → (Int → Bool) → List EmitEvent →
    Option (Int × σ × List EmitEvent)
  | [], s, _marks, evs => some (0, s, evs)
  | (batch, pattern) :: rest, s, marks, evs =>
    let s0 := ctx.ops.backtrack s 0
    match chessBatchAsses ctx.ops ctx.fuel batch s0 with
    | none => none
    | some (tryLearn, s1) =>
      let afterLearn : Option (σ × (Int → Bool) × List EmitEvent) :=
        if tryLearn then
          match least_conditional_part ctx.ops ctx.opts ctx.proofMode pattern
              ctx.shuffleO ctx.ubChoice ctx.fuel ctx.t0 marks ctx.learnOp
              ctx.unitOp s1 with
          | none => none
          | some r => some (r.state, r.marks, evs ++ r.emitted)
        else some (s1, marks, evs)
      match afterLearn with
      | none => none
      | some (s2, marks2, evs2) =>
        let s3 := ctx.ops.backtrack s2 0
        let settled : Option σ :=
          match ctx.ops.propagate s3 with
          | (s4, true) => some s4
          | (s4, false) => settle ctx.ops ctx.fuel (ctx.ops.analyze s4)
        match settled with
        | none => none
        | some s5 =>
          if ctx.ops.unsat s5 then some (20, s5, evs2)
          else chessGo ctx rest s5 marks2 evs2

/-- internal.cpp lines 778-1288: Internal::global_preprocess_chess.  The
globalmarks bitset is zeroed on entry (lines 781-785); the wall clock is
read once for original_time (line 801); the hard-coded schedule is then
consumed batch by batch.  No wall-clock check occurs anywhere in the batch
loop itself. -/
def global_preprocess_chess {σ : Type _} (ops : Ops σ) (opts : Opts)
    (proofMode : Bool) (shuffleO : List Int → List Int) (ubChoice : Bool)
    (fuel : Nat) (learnOp : σ → List Int → σ) (unitOp : σ → Int → σ)
    (s : σ) : Option (Int × σ × List EmitEvent) :=
  let tr := ops.timeRead s
  let ctx : GpCtx σ :=
    ⟨ops, opts, proofMode, [], shuffleO, ubChoice, fuel, tr.1, learnOp,
      unitOp⟩
  chessGo ctx chessSchedule tr.2 (fun _ => false) []

/-! ### Concrete instances used by the counterexamples and witnesses -/

/-- A concrete root-level valuation: variables 3 and 5 satisfied, the rest
unassigned. -/
def gVal (l : Int) : Int :=
  if l = 5 then 1 else if l = -5 then -1
  else if l = 3 then 1 else if l = -3 then -1 else 0

/-- A concrete three-clause database: (-5 v 2) unsatisfied under gVal,
(3 v 2) and the binary (3 v 5) satisfied. -/
def gDb : List EClause :=
  [⟨[-5, 2], false, false⟩, ⟨[3, 2], false, false⟩, ⟨[3, 5], false, false⟩]

/-- Concrete collaborator operations over an integer state holding the
current decision level: backtrack sets it, search_assume_decision bumps it,
propagation always succeeds without touching it, variable 5 is a decision,
and the binary clause (3 v 5) is watched by literal 3. -/
def opsG : Ops Int where
  val := fun _ l => gVal l
  isFixed := fun _ _ => false
  isDecision := fun _ l => l == 5
  varLevel := fun _ _ => 0
  level := fun s => s
  unsat := fun _ => false
  backtrack := fun _ n => n
  assumeDec := fun s _ => s + 1
  propagate := fun s => (s, true)
  analyze := fun s => s
  watches := fun _ l => if l = 3 then [[3, 5]] else []
  clausesOf := fun _ => gDb
  active := fun _ _ => true
  timeRead := fun s => (0, s)

/-- Option record shared by the concrete runs: binary-clause shrink, no
sorting, no greedy selection, no filtering, learning and recording off. -/
def optsBase : Opts :=
  { globallearn := false, globalrecord := false, globalfiltertriv := false,
    globalnoshrink := false, globalbcp := true, globalalphaagreedy := false,
    globalchessheur := false, globalalphaasort := false,
    globalalphaarandom := false, globaltouch := true, globalisort := false,
    globalorderi := true, globalbothpol := false, globalmaxlen := 10,
    globalmaxclause := 5, globaltimelim := 1000 }

/-- optsBase with clause learning enabled. -/
def optsLearn : Opts := { optsBase with globallearn := true }

/-- The derivation run of the pass-by-value counterexample: learning on,
entered at decision level 1. -/
def lcpRunLearn : Option (LcpRes Int) :=
  least_conditional_part opsG optsLearn false [] id false 10 0
    (fun _ => false) (fun s _ => s) (fun s _ => s) 1

/-- The derivation run with learning and recording both disabled, entered
at decision level 1. -/
def lcpRunNoEmit : Option (LcpRes Int) :=
  least_conditional_part opsG optsBase false [] id false 10 0
    (fun _ => false) (fun s _ => s) (fun s _ => s) 1

/-- A solver state for the chess-driver runs: the trace of assumed
literals, each paired with the wall-clock instant of its assumption, plus
the clock itself.  Assuming a literal and reading the clock each advance
the clock by one tick. -/
structure Chrono where
  assumes : List (Int × Int)
  clock : Int
deriving Repr, DecidableEq

/-- Chess-driver collaborator operations over Chrono; the run becomes
unsatisfiable once unsatAt literals have been assumed, every propagation
succeeds, and the formula consists of the single unit candidate clause
over variable 1 (so its max_var is 1). -/
def opsChrono (unsatAt : Nat) : Ops Chrono where
  val := fun _ _ => 0
  isFixed := fun _ _ => false
  isDecision := fun _ _ => false
  varLevel := fun _ _ => 0
  level := fun _ => 0
  unsat := fun s => decide (unsatAt ≤ s.assumes.length)
  backtrack := fun s _ => s
  assumeDec := fun s l => ⟨(l, s.clock) :: s.assumes, s.clock + 1⟩
  propagate := fun s => (s, true)
  analyze := fun s => s
  watches := fun _ _ => []
  clausesOf := fun _ => [⟨[1], false, false⟩]
  active := fun _ _ => true
  timeRead := fun s => (s.clock, ⟨s.assumes, s.clock + 1⟩)

/-- Chess options: chess heuristic on, wall-clock budget zero. -/
def optsChessRun : Opts :=
  { optsBase with globalchessheur := true, globaltimelim := 0 }

/-- Chess run that turns unsatisfiable after the second batch: the budget
(zero) is exceeded from the first clock tick onwards, yet the second batch
is still assumed. -/
def chessRunBudget : Option (Int × Chrono × List EmitEvent) :=
  global_preprocess_chess (opsChrono 4) optsChessRun false id false 10
    (fun s _ => s) (fun s _ => s) ⟨[], 0⟩

/-- Chess run over a formula whose only variable is 1 (opsChrono's clause
database), stopping after the first batch. -/
def chessRunSmallVar : Option (Int × Chrono × List EmitEvent) :=
  global_preprocess_chess (opsChrono 2) optsChessRun false id false 10
    (fun s _ => s) (fun s _ => s) ⟨[], 0⟩

/-- The max_var of the one-variable formula served by opsChrono. -/
def smallMaxVar : Nat := 1

/-- Bound check for one schedule literal: a variable index between 1 and
180. -/
def litWithin180 (l : Int) : Bool :=
  decide (1 ≤ l.natAbs) && decide (l.natAbs ≤ 180)

/-- Collaborator operations for the exhaustive-driver witness: the state is
the wall clock itself and each clock read advances it by 100. -/
def opsClock : Ops Int where
  val := fun _ _ => 0
  isFixed := fun _ _ => false
  isDecision := fun _ _ => false
  varLevel := fun _ _ => 0
  level := fun _ => 0
  unsat := fun _ => false
  backtrack := fun s _ => s
  assumeDec := fun s _ => s
  propagate := fun s => (s, true)
  analyze := fun s => s
  watches := fun _ _ => []
  clausesOf := fun _ => []
  active := fun _ _ => true
  timeRead := fun s => (s, s + 100)

/-- Exhaustive-driver options with a 50-tick budget. -/
def optsBudget50 : Opts := { optsBase with globaltimelim := 50 }

/-- The two limit initializers in the order solve() invokes them
(internal.cpp lines 1668-1670). -/
def afterInitBoth (o : LimOpts) (scale : Int → Int) (conflicts decisions : Int)
    (st : SearchGlobals) : SearchGlobals :=
  init_search_limits o conflicts decisions
    (init_preprocessing_limits o scale conflicts st)

/-- An already-initialized (incremental) limit state with distinctive
threshold values. -/
def stIncremental : SearchGlobals :=
  { lim := { subsume := 101, elim := 102, elimbound := 0, compact := 103,
             probe := 104, condition := 105, preprocessing := 0, reduce := 106,
             flush := 107, rephase := 108, rephased0 := 0, rephased1 := 0,
             restart := 999, stabilize := 998, conflicts := -1, decisions := -1,
             localsearch := 0, initialized := true },
    inc := { preprocessing := 0, conflicts := -1, decisions := -1,
             localsearch := 0, flush := 107, stabilize := 0 },
    lastElimMarked := 0, lastTernaryMarked := 0, lastReduceConflicts := 0,
    stable := false, reluctantEnabled := false,
    averagesInits := 1, averagesSwaps := 0 }

/-- Concrete interval options for the limit-manager runs. -/
def limOptsTest : LimOpts :=
  { subsumeint := 2, elimint := 3, elimboundmin := 16, compactint := 4,
    probeint := 5, conditionint := 6, reduceint := 7, flushint := 8,
    rephaseint := 9, restartint := 2, stabilizeint := 11, reluctant := 0,
    reluctantmax := 0, stabilize := false, stabilizeonly := false }

/-! ## Theorems

Helper lemmas first, then one theorem per claim (with its counterexample
and witness where the status requires them). -/

theorem onSome_mono {α : Type _} {o : Option α} {p q : α → Prop}
    (h : onSome o p) (hpq : ∀ a, p a → q a) : onSome o q := by
  cases o with
  | none => trivial
  | some a => exact hpq a h

theorem chosenUnion_append (subsets : List (Finset Int)) (ch : List Nat)
    (b : Nat) :
    chosenUnion subsets (ch ++ [b])
      = chosenUnion subsets ch ∪ subsets.getD b ∅ := by
  simp [chosenUnion, List.foldl_append]

theorem greedyLoop_resid (subsets : List (Finset Int)) (totalLen : Nat)
    (T : Finset Int) :
    ∀ (fuel : Nat) (covered uncovered : Finset Int) (chosen : List Nat),
      uncovered = T \ covered →
      covered = chosenUnion subsets chosen →
      (greedyLoop subsets totalLen fuel covered uncovered chosen).2
        = T \ chosenUnion subsets
            (greedyLoop subsets totalLen fuel covered uncovered chosen).1 := by
  intro fuel
  induction fuel with
  | zero =>
    intro covered uncovered chosen h1 h2
    simpa [greedyLoop, h2.symm] using h1
  | succ n ih =>
    intro covered uncovered chosen h1 h2
    simp only [greedyLoop]
    split
    · cases hb : bestIdx subsets covered with
      | none => simpa [h2.symm] using h1
      | some b =>
        refine ih (covered ∪ subsets.getD b ∅)
          (uncovered \ subsets.getD b ∅) (chosen ++ [b]) ?_ ?_
        · rw [h1, sdiff_sdiff]
          simp [Finset.sup_eq_union]
        · rw [chosenUnion_append, h2]
    · simpa [h2.symm] using h1

theorem greedySetCover_resid (subsets : List (Finset Int)) (total : List Int) :
    (greedySetCover subsets total).2
      = total.toFinset \ chosenUnion subsets (greedySetCover subsets total).1 := by
  unfold greedySetCover
  exact greedyLoop_resid subsets total.length total.toFinset _ ∅ total.toFinset []
    (by simp) (by simp [chosenUnion])

theorem specialLoop_resid (alphaA : List Int) (subsets : List (Finset Int))
    (T : Finset Int) :
    ∀ (gt : List Int) (covered uncovered : Finset Int) (chosen : List Nat)
      (r : List Nat × Finset Int),
      uncovered = T \ covered →
      covered = chosenUnion subsets chosen →
      specialLoop alphaA subsets gt covered uncovered chosen = some r →
      r.2 = T \ chosenUnion subsets r.1 := by
  intro gt
  induction gt with
  | nil =>
    intro covered uncovered chosen r h1 h2 h3
    simp only [specialLoop] at h3
    cases h3
    simpa [h2.symm] using h1
  | cons learn rest ih =>
    intro covered uncovered chosen r h1 h2 h3
    simp only [specialLoop] at h3
    split at h3
    · refine ih _ _ _ r ?_ ?_ h3
      · rw [h1, sdiff_sdiff]
        simp [Finset.sup_eq_union]
      · rw [chosenUnion_append, h2]
    · cases h3

theorem greedySetCoverSpecial_resid (gt alphaA : List Int)
    (subsets : List (Finset Int)) (total : List Int)
    (r : List Nat × Finset Int)
    (h : greedySetCoverSpecial gt alphaA subsets total = some r) :
    r.2 = total.toFinset \ chosenUnion subsets r.1 :=
  specialLoop_resid alphaA subsets total.toFinset gt ∅ total.toFinset [] r
    (by simp) (by simp [chosenUnion]) h

/-- C3: under the greedy set cover used by the derivation (and its
schedule-directed variant), the residual is a subset of the
negated-conditional-part, and the union of the chosen coverage sets —
restricted to the negated-conditional-part — equals the
negated-conditional-part minus the residual.  (The claim's unrestricted
equality fails when a coverage set reaches outside the
negated-conditional-part; see the counterexample.) -/
theorem c3_greedy_cover_residual_sound (subsets : List (Finset Int))
    (total : List Int) :
    ((greedySetCover subsets total).2 ⊆ total.toFinset ∧
      chosenUnion subsets (greedySetCover subsets total).1 ∩ total.toFinset
        = total.toFinset \ (greedySetCover subsets total).2) ∧
    (∀ (gt alphaA : List Int) (r : List Nat × Finset Int),
      greedySetCoverSpecial gt alphaA subsets total = some r →
      r.2 ⊆ total.toFinset ∧
        chosenUnion subsets r.1 ∩ total.toFinset = total.toFinset \ r.2) := by
  constructor
  · have h := greedySetCover_resid subsets total
    constructor
    · rw [h]; exact Finset.sdiff_subset
    · rw [h, Finset.sdiff_sdiff_self_left, Finset.inter_comm]
  · intro gt alphaA r hr
    have h := greedySetCoverSpecial_resid gt alphaA subsets total r hr
    constructor
    · rw [h]; exact Finset.sdiff_subset
    · rw [h, Finset.sdiff_sdiff_self_left, Finset.inter_comm]

/-- C3 counterexample: with the single coverage set {1, 2} and
negated-conditional-part [1], the greedy cover chooses the set, the
residual is empty, but the union of chosen coverage sets is {1, 2}, not
the negated-conditional-part minus the residual ({1}). -/
theorem c3_union_overshoot_counterexample :
    ¬ (chosenUnion [({1, 2} : Finset Int)]
          (greedySetCover [({1, 2} : Finset Int)] [1]).1
        = ([1] : List Int).toFinset
            \ (greedySetCover [({1, 2} : Finset Int)] [1]).2) := by
  decide

/-- C3 witness: the theorem applied to the concrete family [{1}] over [1],
and to the schedule-directed variant with an empty schedule. -/
theorem c3_greedy_cover_residual_sound_witness :
    (((greedySetCover [({1} : Finset Int)] [1]).2 ⊆ ([1] : List Int).toFinset ∧
      chosenUnion [({1} : Finset Int)]
          (greedySetCover [({1} : Finset Int)] [1]).1 ∩ ([1] : List Int).toFinset
        = ([1] : List Int).toFinset \ (greedySetCover [({1} : Finset Int)] [1]).2)) ∧
    ((([], {1}) : List Nat × Finset Int).2 ⊆ ([1] : List Int).toFinset ∧
      chosenUnion [({1} : Finset Int)] (([], ({1} : Finset Int)) : List Nat × Finset Int).1
          ∩ ([1] : List Int).toFinset
        = ([1] : List Int).toFinset \ (([], ({1} : Finset Int)) : List Nat × Finset Int).2) :=
  ⟨(c3_greedy_cover_residual_sound [({1} : Finset Int)] [1]).1,
    (c3_greedy_cover_residual_sound [({1} : Finset Int)] [1]).2 [] []
      (([], ({1} : Finset Int))) (by decide)⟩

/-- C4 (amended): on an incremental (already initialized) call, the
subsume, elim, probe, condition and reduce limits are kept unchanged,
while the restart and stabilize limits are recomputed to the current
conflict count plus their configured interval on every call. -/
theorem c4_incremental_limits (o : LimOpts) (scale : Int → Int)
    (conflicts decisions : Int) (st : SearchGlobals)
    (h : st.lim.initialized = true) :
    (afterInitBoth o scale conflicts decisions st).lim.subsume = st.lim.subsume ∧
    (afterInitBoth o scale conflicts decisions st).lim.elim = st.lim.elim ∧
    (afterInitBoth o scale conflicts decisions st).lim.probe = st.lim.probe ∧
    (afterInitBoth o scale conflicts decisions st).lim.condition = st.lim.condition ∧
    (afterInitBoth o scale conflicts decisions st).lim.reduce = st.lim.reduce ∧
    (afterInitBoth o scale conflicts decisions st).lim.restart
      = conflicts + o.restartint ∧
    (afterInitBoth o scale conflicts decisions st).lim.stabilize
      = conflicts + o.stabilizeint := by
  simp [afterInitBoth, init_preprocessing_limits, init_search_limits, h]

/-- C4 counterexample: an incremental state whose restart limit is 999 is
nevertheless reset to conflicts + restartint by init_search_limits,
contradicting the claim that the restart limit is kept unchanged on
subsequent incremental calls. -/
theorem c4_restart_reset_counterexample :
    stIncremental.lim.initialized = true ∧
    (afterInitBoth limOptsTest id 5 0 stIncremental).lim.restart
      ≠ stIncremental.lim.restart := by
  constructor
  · rfl
  · decide

/-- C4 witness: the theorem applied to the concrete incremental state. -/
theorem c4_incremental_limits_witness :
    (afterInitBoth limOptsTest id 5 0 stIncremental).lim.subsume
        = stIncremental.lim.subsume ∧
    (afterInitBoth limOptsTest id 5 0 stIncremental).lim.elim
        = stIncremental.lim.elim ∧
    (afterInitBoth limOptsTest id 5 0 stIncremental).lim.probe
        = stIncremental.lim.probe ∧
    (afterInitBoth limOptsTest id 5 0 stIncremental).lim.condition
        = stIncremental.lim.condition ∧
    (afterInitBoth limOptsTest id 5 0 stIncremental).lim.reduce
        = stIncremental.lim.reduce ∧
    (afterInitBoth limOptsTest id 5 0 stIncremental).lim.restart = 5 + 2 ∧
    (afterInitBoth limOptsTest id 5 0 stIncremental).lim.stabilize = 5 + 11 :=
  c4_incremental_limits limOptsTest id 5 0 stIncremental rfl

theorem trivLoop_fst_eq_scanHit {σ : Type _} (ops : Ops σ) (fuel : Nat) :
    ∀ (c : List Int) (s : σ) (b : Bool) (s1 : σ),
      trivLoop ops fuel c s = some (b, s1) → b = scanHit ops c s := by
  intro c
  induction c with
  | nil =>
    intro s b s1 h
    simp only [trivLoop, Option.some.injEq, Prod.mk.injEq] at h
    simp [scanHit, h.1.symm]
  | cons l rest ih =>
    intro s b s1 h
    simp only [trivLoop] at h
    simp only [scanHit]
    split at h
    · rename_i hv
      rw [if_pos hv]
      simp only [Option.some.injEq, Prod.mk.injEq] at h
      exact h.1.symm
    · rename_i hv
      split at h
      · rename_i hv2
        rw [if_neg hv, if_pos hv2]
        exact ih _ _ _ h
      · rename_i hv2
        rw [if_neg hv, if_neg hv2]
        cases hp : ops.propagate (ops.assumeDec s (-1 * l)) with
        | mk s2 ok =>
          rw [hp] at h
          cases ok with
          | true =>
            simp only at h
            exact ih _ _ _ h
          | false =>
            simp only at h
            split at h
            · cases h
            · simp only [Option.some.injEq, Prod.mk.injEq] at h
              exact h.1.symm

/-- C5 (amended): check_if_clause_trivial returns true iff the clause's
literal count exceeds the configured maximum, or the sequential scan —
skipping falsified literals — meets a literal already satisfied or, after
assuming an unassigned literal's negation, a propagation conflict, before
all literals are exhausted.  (Unlike the claim, a satisfied literal alone
makes the clause trivial, with no propagation conflict.) -/
theorem c5_trivial_characterization {σ : Type _} (ops : Ops σ)
    (globalmaxlen : Int) (fuel : Nat) (c : List Int) (s : σ) (b : Bool)
    (s2 : σ)
    (h : check_if_clause_trivial ops globalmaxlen fuel c s = some (b, s2)) :
    b = true ↔ ((c.length : Int) > globalmaxlen ∨
      scanHit ops c (ops.backtrack s 0) = true) := by
  unfold check_if_clause_trivial at h
  split at h
  · rename_i hlen
    simp only [Option.some.injEq, Prod.mk.injEq] at h
    constructor
    · intro _; exact Or.inl hlen
    · intro _; exact h.1.symm
  · rename_i hlen
    cases htl : trivLoop ops fuel c (ops.backtrack s 0) with
    | none => rw [htl] at h; cases h
    | some p =>
      obtain ⟨b0, s1⟩ := p
      rw [htl] at h
      simp only [Option.some.injEq, Prod.mk.injEq] at h
      have hb := trivLoop_fst_eq_scanHit ops fuel c (ops.backtrack s 0) b0 s1 htl
      rw [← h.1, hb]
      constructor
      · intro hs; exact Or.inr hs
      · intro hs
        cases hs with
        | inl hgt => exact absurd hgt hlen
        | inr hs => exact hs

/-- C5 counterexample: the clause [5] whose literal is already satisfied at
the root is reported trivial by the code, although it is not oversized and
the spec's scan (which skips already-true literals) reaches no propagation
conflict — under the claim's characterization the result would be
false. -/
theorem c5_satisfied_literal_counterexample :
    check_if_clause_trivial opsG 10 5 [5] 0 = some (true, 0) ∧
    ¬ ((([5] : List Int).length : Int) > 10) ∧
    spec_trivial_scan opsG [5] (opsG.backtrack 0 0) = false := by
  refine ⟨rfl, by decide, rfl⟩

/-- C5 witness: the characterization applied to the concrete run on the
clause [5]. -/
theorem c5_trivial_characterization_witness :
    (true = true ↔ ((([5] : List Int).length : Int) > 10 ∨
      scanHit opsG [5] (opsG.backtrack 0 0) = true)) :=
  c5_trivial_characterization opsG 10 5 [5] 0 true 0 rfl

/-- C6 (amended): for hypotheses matching the backtrack contract,
check_if_clause_trivial leaves the solver at decision level 0 on both
return paths whenever the clause is not oversized; the oversized-clause
early return leaves the state (hence the entry decision level)
unchanged. -/
theorem c6_level_zero_on_checked_paths {σ : Type _} (ops : Ops σ)
    (globalmaxlen : Int) (fuel : Nat) (c : List Int) (s : σ) (b : Bool)
    (s2 : σ)
    (hb : ∀ t, ops.level (ops.backtrack t 0) = 0)
    (h : check_if_clause_trivial ops globalmaxlen fuel c s = some (b, s2)) :
    ((c.length : Int) ≤ globalmaxlen → ops.level s2 = 0) ∧
    ((c.length : Int) > globalmaxlen → s2 = s) := by
  unfold check_if_clause_trivial at h
  split at h
  · rename_i hlen
    simp only [Option.some.injEq, Prod.mk.injEq] at h
    exact ⟨fun hle => absurd hlen (not_lt.mpr hle), fun _ => h.2.symm⟩
  · rename_i hlen
    refine ⟨fun _ => ?_, fun hgt => absurd hgt hlen⟩
    cases htl : trivLoop ops fuel c (ops.backtrack s 0) with
    | none => rw [htl] at h; cases h
    | some p =>
      obtain ⟨b0, s1⟩ := p
      rw [htl] at h
      simp only [Option.some.injEq, Prod.mk.injEq] at h
      rw [← h.2]
      exact hb s1

/-- C6 counterexample: entered at decision level 1 with the clause
[1, 2, 3] and maximum length 2, the oversized-clause early return path of
check_if_clause_trivial returns true while the solver is still at level 1,
not 0. -/
theorem c6_oversized_level_counterexample :
    check_if_clause_trivial opsG 2 5 [1, 2, 3] 1 = some (true, 1) ∧
    opsG.level 1 ≠ 0 := by
  refine ⟨rfl, by decide⟩

/-- C6 witness: the theorem applied to a concrete non-oversized run
entered at level 7. -/
theorem c6_level_zero_on_checked_paths_witness :
    ((([5] : List Int).length : Int) ≤ 10 → opsG.level 0 = 0) ∧
    ((([5] : List Int).length : Int) > 10 → (0 : Int) = 7) :=
  c6_level_zero_on_checked_paths opsG 10 5 [5] 7 true 0 (fun _ => rfl) rfl

/-- C7: on the execution path where keep_i is never set (no conflict, no
falsified residual), propagate_shrink reaches the end of its function body
without a return statement, so no well-defined boolean is produced (the
embedding yields none). -/
theorem c7_missing_return_eval :
    (propagate_shrink opsG [3] [] [] 1).1 = none := rfl

/-- C1: in the source, bcp_shrink does compute the claim's removals and
retentions on its local copies — here the binary clause (3 v 5) watched by
antecedent 3 explains the residual -5, which is removed while 3 is
retained — but both output vectors are passed by value, so the
least-conditional-part caller still sees an empty useful set and the
unshrunk residual, takes the no-antecedent fallback of step 5, and emits
the raw candidate [-5, 3] instead of the shrunk clause (residual [] plus
useful [3]). -/
theorem c1_shrink_results_discarded_eval :
    bcp_shrink opsG 1 [3, 5] [] [-5] = ([3], []) ∧
    lcpRunLearn.map (fun r => r.emitted) = some [EmitEvent.learned [-5, 3]] ∧
    lcpRunLearn.map (fun r => r.produced) = some true :=
  ⟨rfl, rfl, rfl⟩

/-- C2 counterexample: with learning and recording both disabled, a
least_conditional_part run that assembles a candidate clause returns true
although no clause was learned or recorded, and — entered at decision
level 1 on the binary-shrink path with filtering off — it returns with the
solver still at level 1. -/
theorem c2_result_without_production_counterexample :
    lcpRunNoEmit.map (fun r => r.produced) = some true ∧
    lcpRunNoEmit.map (fun r => r.emitted) = some [] ∧
    lcpRunNoEmit.map (fun r => opsG.level r.state) = some 1 :=
  ⟨rfl, rfl, rfl⟩

theorem onSome_map {α β : Type _} (o : Option α) (f : α → β) (p : β → Prop)
    (h : onSome o (fun a => p (f a))) : onSome (o.map f) p := by
  cases o with
  | none => trivial
  | some a => exact h

theorem onSome_intro {α : Type _} (o : Option α) (p : α → Prop)
    (h : ∀ a, p a) : onSome o p := by
  cases o with
  | none => trivial
  | some a => exact h a

theorem addClause_no_flags {σ : Type _} (ops : Ops σ) (opts : Opts)
    (nc : List Int) (lit : Int) (negCond autarky : List Int) (s : σ)
    (lo : σ → List Int → σ) (uo : σ → Int → σ)
    (h1 : opts.globallearn = false) (h2 : opts.globalrecord = false) :
    addClause ops opts nc lit negCond autarky s lo uo = some (s, []) := by
  simp [addClause, h1, h2]

theorem fallbackLoop_no_flags {σ : Type _} (ops : Ops σ) (opts : Opts)
    (fuel : Nat) (t0 : Int) (alphaA : List Int) (lo : σ → List Int → σ)
    (uo : σ → Int → σ)
    (h1 : opts.globallearn = false) (h2 : opts.globalrecord = false) :
    ∀ (ncs : List (List Int)) (s : σ) (evs : List EmitEvent) (adding : Bool),
      onSome (fallbackLoop ops opts fuel t0 alphaA lo uo ncs s evs adding)
        (fun r => r.2.2 = evs) := by
  intro ncs
  induction ncs with
  | nil => intro s evs adding; exact rfl
  | cons nc rest ih =>
    intro s evs adding
    simp only [fallbackLoop]
    split
    · exact rfl
    · split
      · -- globalfiltertriv on
        cases hc : check_if_clause_trivial ops opts.globalmaxlen fuel nc
            (ops.timeRead s).2 with
        | none => trivial
        | some p =>
          obtain ⟨tb, s2⟩ := p
          cases tb with
          | true => exact ih s2 evs true
          | false =>
            cases hl : nc.getLast? with
            | none => trivial
            | some lit =>
              dsimp only
              rw [addClause_no_flags ops opts nc lit nc alphaA s2 lo uo h1 h2]
              exact onSome_mono (ih s2 (evs ++ []) true)
                (fun a ha => by simpa using ha)
      · -- globalfiltertriv off
        cases hl : nc.getLast? with
        | none => trivial
        | some lit =>
          dsimp only
          rw [addClause_no_flags ops opts nc lit nc alphaA
            (ops.timeRead s).2 lo uo h1 h2]
          exact onSome_mono (ih (ops.timeRead s).2 (evs ++ []) true)
            (fun a ha => by simpa using ha)

theorem singleBranch_no_flags {σ : Type _} (ops : Ops σ) (opts : Opts)
    (fuel : Nat) (negMinus useful alphaA : List Int)
    (lo : σ → List Int → σ) (uo : σ → Int → σ) (s : σ)
    (h1 : opts.globallearn = false) (h2 : opts.globalrecord = false) :
    onSome (singleBranch ops opts fuel negMinus useful alphaA lo uo s)
      (fun r => r.2.2 = []) := by
  simp only [singleBranch]
  cases hl : useful.getLast? with
  | none => trivial
  | some lit =>
    dsimp only
    split
    · cases hc : check_if_clause_trivial ops opts.globalmaxlen fuel
          (negMinus ++ useful) s with
      | none => trivial
      | some p =>
        obtain ⟨tb, s2⟩ := p
        cases tb with
        | true => exact rfl
        | false =>
          dsimp only
          rw [addClause_no_flags ops opts (negMinus ++ useful) lit
            (negMinus ++ useful) alphaA s2 lo uo h1 h2]
          exact rfl
    · rw [addClause_no_flags ops opts (negMinus ++ useful) lit
        (negMinus ++ useful) alphaA s lo uo h1 h2]
      exact rfl

theorem lcpAssemble_no_flags {σ : Type _} (ops : Ops σ) (opts : Opts)
    (fuel : Nat) (t0 : Int) (ctadd : List (List Int))
    (alphaA useful negMinus : List Int) (lo : σ → List Int → σ)
    (uo : σ → Int → σ) (s : σ)
    (h1 : opts.globallearn = false) (h2 : opts.globalrecord = false) :
    onSome (lcpAssemble ops opts fuel t0 ctadd alphaA useful negMinus lo uo s)
      (fun r => r.2.2 = []) := by
  unfold lcpAssemble
  split
  · exact fallbackLoop_no_flags ops opts fuel t0 alphaA lo uo h1 h2 _ s [] false
  · exact singleBranch_no_flags ops opts fuel negMinus useful alphaA lo uo s h1 h2

theorem lcpCore_no_flags {σ : Type _} (ops : Ops σ) (opts : Opts)
    (gt : List Int) (sh : List Int → List Int) (ub : Bool) (fuel : Nat)
    (t0 : Int) (ctadd : List (List Int)) (alphaA negAlphaC : List Int)
    (lo : σ → List Int → σ) (uo : σ → Int → σ) (s : σ)
    (h1 : opts.globallearn = false) (h2 : opts.globalrecord = false) :
    onSome (lcpCore ops opts gt sh ub fuel t0 ctadd alphaA negAlphaC lo uo s)
      (fun r => r.2.2 = []) := by
  unfold lcpCore
  cases hs : custom_sort_alpha_a ops opts sh alphaA s with
  | none => trivial
  | some p =>
    obtain ⟨alphaA1, s1⟩ := p
    dsimp only
    split
    · cases hg : greedy_sort_alpha_a ops gt alphaA1 negAlphaC s1 with
      | none => trivial
      | some q =>
        obtain ⟨useful, negMinus, s2⟩ := q
        exact lcpAssemble_no_flags ops opts fuel t0 ctadd alphaA1 useful
          negMinus lo uo s2 h1 h2
    · split
      · cases hg : greedy_sort_alpha_a_special ops gt alphaA1 negAlphaC s1 with
        | none => trivial
        | some q =>
          obtain ⟨useful, negMinus, s2⟩ := q
          exact lcpAssemble_no_flags ops opts fuel t0 ctadd alphaA1 useful
            negMinus lo uo s2 h1 h2
      · split
        · exact lcpAssemble_no_flags ops opts fuel t0 ctadd alphaA1 []
            negAlphaC lo uo s1 h1 h2
        · cases hp : propagate_shrink ops alphaA1 [] negAlphaC s1 with
          | mk ob s2 =>
            cases ob with
            | none =>
              cases hub : ub with
              | true =>
                exact lcpAssemble_no_flags ops opts fuel t0 ctadd alphaA1 []
                  negAlphaC lo uo s2 h1 h2
              | false => exact rfl
            | some eb =>
              cases eb with
              | false => exact rfl
              | true =>
                exact lcpAssemble_no_flags ops opts fuel t0 ctadd alphaA1 []
                  negAlphaC lo uo s2 h1 h2

/-- C2 (amended): least_conditional_part's boolean result reports that
clause assembly was attempted, not that a clause was produced: with
learning and recording both disabled no clause is ever emitted on any
defined run, whatever the result; production coincides with a true result
only when an emission channel is enabled and the triviality filter keeps
the clause, and the solver is left at level 0 only on the propagation
shrink paths, the binary-clause shrink path keeping the entry level. -/
theorem c2_emission_needs_flags {σ : Type _} (ops : Ops σ) (opts : Opts)
    (pm : Bool) (gt : List Int) (sh : List Int → List Int) (ub : Bool)
    (fuel : Nat) (t0 : Int) (marks0 : Int → Bool) (lo : σ → List Int → σ)
    (uo : σ → Int → σ) (s : σ)
    (h1 : opts.globallearn = false) (h2 : opts.globalrecord = false) :
    onSome (least_conditional_part ops opts pm gt sh ub fuel t0 marks0 lo uo s)
      (fun r => r.emitted = []) := by
  unfold least_conditional_part
  apply onSome_map
  exact onSome_mono
    (lcpCore_no_flags ops opts gt sh ub fuel t0 _ _ _ lo uo s h1 h2)
    (fun a ha => ha)

/-- C2 witness: the no-emission theorem applied to the concrete run of the
counterexample configuration. -/
theorem c2_emission_needs_flags_witness :
    onSome lcpRunNoEmit (fun r => r.emitted = []) :=
  c2_emission_needs_flags opsG optsBase false [] id false 10 0
    (fun _ => false) (fun s _ => s) (fun s _ => s) 1 rfl rfl

theorem memB_append (x : Int) (a b : List Int) :
    memB x (a ++ b) = (memB x a || memB x b) := by
  induction a with
  | nil => rfl
  | cons y ys ih => by_cases h : y = x <;> simp [memB, h, ih]

theorem setMarksList_spec : ∀ (ls : List Int) (m : Int → Bool) (x : Int),
    setMarksList ls m x = (memB x ls || m x) := by
  intro ls
  induction ls with
  | nil => intro m x; rfl
  | cons l ls ih =>
    intro m x
    show setMarksList ls (fun y => if y = l then true else m y) x = _
    rw [ih]
    by_cases hx : l = x
    · subst hx; simp [memB]
    · simp [memB, hx, Ne.symm hx]

theorem clearMarks_spec : ∀ (ls : List Int) (m : Int → Bool) (x : Int),
    clearMarks ls m x = if memB x ls then false else m x := by
  intro ls
  induction ls with
  | nil => intro m x; rfl
  | cons l ls ih =>
    intro m x
    show clearMarks ls (fun y => if y = l then false else m y) x = _
    rw [ih]
    by_cases hx : l = x
    · subst hx
      by_cases h2 : memB l ls <;> simp [memB, h2]
    · simp [memB, hx, Ne.symm hx]

theorem lcpScan_marks (v : Int → Int) (fx : Int → Bool) (pm : Bool) :
    ∀ (cs : List EClause) (acc : ScanOut) (m0 : Int → Bool),
      (∀ x, acc.marks x = (memB x acc.neg || m0 x)) →
      ∀ x, (lcpScan v fx pm cs acc).marks x
        = (memB x (lcpScan v fx pm cs acc).neg || m0 x) := by
  intro cs
  induction cs with
  | nil => intro acc m0 h x; exact h x
  | cons c cs ih =>
    intro acc m0 h x
    simp only [lcpScan]
    split
    · exact ih acc m0 h x
    · split
      · exact ih acc m0 h x
      · split
        · exact ih acc m0 h x
        · split
          · apply ih
            intro y
            simp only
            rw [setMarksList_spec, h y, memB_append]
            cases memB y acc.neg <;>
              cases memB y (scanOneClause v fx acc.marks c.lits).2.2 <;>
              cases m0 y <;> rfl
          · apply ih
            intro y
            exact h y

theorem clearMarks_scan_clean (v : Int → Int) (fx : Int → Bool) (pm : Bool)
    (cs : List EClause) (x : Int) :
    clearMarks (lcpScan v fx pm cs ⟨[], [], fun _ => false⟩).neg
      (lcpScan v fx pm cs ⟨[], [], fun _ => false⟩).marks x = false := by
  have hm := lcpScan_marks v fx pm cs ⟨[], [], fun _ => false⟩ (fun _ => false)
    (by intro y; simp [memB]) x
  rw [clearMarks_spec, hm]
  cases hmem : memB x (lcpScan v fx pm cs ⟨[], [], fun _ => false⟩).neg <;>
    simp [hmem]

/-- C9: when every globalmarks bit is unset at the start of a
least_conditional_part call, every bit is unset again on every defined
return path of the call — the marks set while building the negated
conditional part are exactly those cleared at step 3, and no later step
touches them. -/
theorem c9_globalmarks_cleared {σ : Type _} (ops : Ops σ) (opts : Opts)
    (pm : Bool) (gt : List Int) (sh : List Int → List Int) (ub : Bool)
    (fuel : Nat) (t0 : Int) (lo : σ → List Int → σ) (uo : σ → Int → σ)
    (s : σ) (l : Int) :
    onSome (least_conditional_part ops opts pm gt sh ub fuel t0
        (fun _ => false) lo uo s)
      (fun r => r.marks l = false) := by
  unfold least_conditional_part
  apply onSome_map
  exact onSome_intro _ _
    (fun a => clearMarks_scan_clean (ops.val s) (fun x => ops.isFixed s x) pm
      (ops.clausesOf s) l)

theorem gpOuter_time_exceeded {σ : Type _} (ctx : GpCtx σ) (maxVar : Nat)
    (sorted : List Int) (randO : Nat → Nat) (cd count rc : Nat) (s : σ)
    (marks : Int → Bool) (evs : List EmitEvent)
    (ht : (ctx.ops.timeRead s).1 - ctx.t0 > ctx.opts.globaltimelim) :
    gpOuter ctx maxVar sorted randO (cd + 1) count rc s marks evs
      = some (if ctx.ops.unsat (ctx.ops.timeRead s).2 then 20 else 0,
          (ctx.ops.timeRead s).2, evs) := by
  simp only [gpOuter]
  rw [if_pos ht]

/-- C8 (amended, exhaustive-variant part): when the wall-clock reading at
the top of the first per-candidate-literal iteration already exceeds the
budget relative to the original_time captured at entry, global_preprocess
breaks out immediately, returning 0 (or 20 under a pending unsat flag)
with no probe performed and nothing emitted. -/
theorem c8_exhaustive_outer_time_check {σ : Type _} (ops : Ops σ)
    (opts : Opts) (pm : Bool) (gt : List Int) (sh : List Int → List Int)
    (ub : Bool) (fuel maxVar : Nat) (randO : Nat → Nat)
    (lo : σ → List Int → σ) (uo : σ → Int → σ) (s : σ)
    (hmv : 1 ≤ maxVar)
    (ht : (ops.timeRead (ops.timeRead s).2).1 - (ops.timeRead s).1
        > opts.globaltimelim) :
    global_preprocess ops opts pm gt sh ub fuel maxVar randO lo uo s
      = some
          (if ops.unsat (ops.timeRead (ops.timeRead s).2).2 then 20 else 0,
            (ops.timeRead (ops.timeRead s).2).2, []) := by
  obtain ⟨k, rfl⟩ : ∃ k, maxVar = k + 1 :=
    ⟨maxVar - 1, (Nat.succ_pred_eq_of_pos hmv).symm⟩
  exact gpOuter_time_exceeded
    ⟨ops, opts, pm, gt, sh, ub, fuel, (ops.timeRead s).1, lo, uo⟩ (k + 1)
    (if opts.globalisort then get_sorted_literals ops (ops.timeRead s).2 (k + 1)
      else [])
    randO k 1 0 (ops.timeRead s).2 (fun _ => false) [] ht

/-- C8 witness: with a clock advancing 100 ticks per reading and a 50-tick
budget, the exhaustive driver exits at the top of its first iteration. -/
theorem c8_exhaustive_outer_time_check_witness :
    global_preprocess opsClock optsBudget50 false [] id false 10 3
      (fun _ => 0) (fun s _ => s) (fun s _ => s) 0 = some (0, 200, []) :=
  c8_exhaustive_outer_time_check opsClock optsBudget50 false [] id false 10 3
    (fun _ => 0) (fun s _ => s) (fun s _ => s) 0 (by decide) (by decide)

/-- C8 counterexample: the chessboard variant performs no wall-clock check
in its loops: with a zero budget and a clock that has advanced past the
budget since the first tick, the driver still assumes literal 11 of the
second schedule batch at clock instant 4 (trace entries are (literal,
clock) pairs), and only stops through the unsat flag. -/
theorem c8_chess_ignores_budget_counterexample :
    chessRunBudget.map (fun r => r.1) = some 20 ∧
    chessRunBudget.map
        (fun r => decide (((11 : Int), (4 : Int)) ∈ r.2.1.assumes))
      = some true ∧
    (4 : Int) - 0 > optsChessRun.globaltimelim := by
  refine ⟨rfl, rfl, by decide⟩

set_option maxRecDepth 8000 in
/-- C10 (amended): every literal of the hard-coded chessboard schedule has
a variable index between 1 and 180 — so the flags/val/assume accesses that
the chessboard variant makes on schedule literals are in bounds exactly
when the formula has max_var at least 180, and out of bounds for smaller
formulas (the driver never guards them against max_var). -/
theorem c10_schedule_bounded_by_180 :
    chessSchedule.all (fun p => (p.1 ++ p.2).all litWithin180) = true := by
  rfl

/-- C10 counterexample: on a formula whose only variable is 1, the
chessboard driver still passes literal 10 of its first batch to
search_assume_decision (and to flags and val before that), an access
beyond max_var. -/
theorem c10_schedule_exceeds_maxvar_counterexample :
    chessRunSmallVar.map (fun r => r.1) = some 20 ∧
    chessRunSmallVar.map
        (fun r => decide (((10 : Int), (2 : Int)) ∈ r.2.1.assumes))
      = some true ∧
    (10 : Int).natAbs > smallMaxVar := by
  refine ⟨rfl, rfl, by decide⟩

end Cautical
